import Mathlib

/-!
# PFlow: ticket workflow coordinator

A shallow embedding of the Go backend of PFlow
(`backend/internal/{models,repository,workflow,service,worker}`).

Every operation of the program talks to collaborators that live outside the
process: the relational store (through GORM), the process engine (through
HTTP) and the message bus.  The embedding makes these explicit:

* `World` is the state the operations act on: the persisted ticket rows and
  the chronological trace of every call made to a collaborator;
* `Env` holds what the code cannot decide by itself: whether a call to a
  collaborator fails and what it answers.  Each such answer may depend on the
  whole `World` reached so far, so two calls with the same arguments may be
  answered differently.

A Go `error` is embedded as its message; `none` is the `nil` error.
-/

namespace PFlow

/-! ## models/ticket.go -/

/-- The `uuid.UUID` type: a 128-bit identifier, kept as its numeric value. -/
structure UUID where
  val : Nat
deriving DecidableEq

/-- The zero identifier `uuid.Nil`. -/
def UUID.Nil : UUID := ⟨0⟩

/-- The `TicketStatus` type: `type TicketStatus string`. -/
abbrev TicketStatus := String

def TicketStatusDraft : TicketStatus := "draft"
def TicketStatusSubmitted : TicketStatus := "submitted"
def TicketStatusApproved : TicketStatus := "approved"
def TicketStatusRejected : TicketStatus := "rejected"
def TicketStatusProcessing : TicketStatus := "processing"
def TicketStatusCompleted : TicketStatus := "completed"

/-- The `Ticket` entity.  The columns `CreatedAt` and `UpdatedAt` of the Go
struct are never read or assigned by the code under study; they are filled in
by the ORM from the wall clock when a row is written and are left out of the
embedding. -/
structure Ticket where
  ID : UUID
  Title : String
  Description : String
  Requester : String
  Assignee : String
  Status : TicketStatus
  ProcessInstanceID : String
deriving DecidableEq

/-! ## Values exchanged with the collaborators -/

/-- A scalar held in a Go `map[string]any`. -/
inductive Value where
  | str (s : String)
  | bool (b : Bool)
  | num (n : Int)
deriving DecidableEq

/-- A Go `map[string]any` literal, as its list of entries. -/
abbrev Payload := List (String × Value)

/-- The one-entry object `{"value": v}` of the engine's variable protocol. -/
structure Wrapped (α : Type) where
  value : α
deriving DecidableEq

/-- The `ExternalTask` record of `workflow/camunda_client.go`; an entry of
`VariablesRaw` is a name with its `(type, value)` pair. -/
structure ExternalTask where
  ID : String
  ProcessID : String
  ActivityID : String
  TopicName : String
  BusinessKey : String
  VariablesRaw : List (String × String × Value)
deriving DecidableEq

/-- An outbound request to the engine.  Every request is a POST; the
constructor fixes the path below the base URL and carries the fields of the
body. -/
inductive Request where
  /-- The request `/deployment/create`: multipart file `name.bpmn`. -/
  | deploy (name : String) (bpmn : List Nat)
  /-- The request `/process-definition/key/KEY/start`. -/
  | start (key : String) (vars : List (String × Wrapped Value)) (businessKey : String)
  /-- The request `/external-task/fetchAndLock` with its single topic. -/
  | fetchAndLock (workerId : String) (maxTasks : Nat) (usePriority : Bool)
      (topicName : String) (lockDuration : Int)
  /-- The request `/external-task/TASKID/complete`. -/
  | complete (taskID : String) (workerId : String) (vars : List (String × Wrapped Value))
deriving DecidableEq

/-- What `http.Client.Do` hands back when the transport worked. -/
structure HttpResponse where
  StatusCode : Int
  Status : String
  Body : String
deriving DecidableEq

/-- One call made to a collaborator.  `dispatch` is the record the poller
leaves of one call of `HandleExternalTask` together with the error returned. -/
inductive Effect where
  | dbCreate (t : Ticket)
  | dbFind (id : UUID)
  | dbSave (t : Ticket)
  | http (r : Request)
  | publish (routingKey : String) (payload : Payload)
  | log (msg : String)
  | dispatch (task : ExternalTask) (err : Option String)
deriving DecidableEq

/-- The state the operations act on. -/
structure World where
  /-- The rows of the `tickets` table. -/
  tickets : List Ticket
  /-- Every call made so far, oldest first. -/
  trace : List Effect
deriving DecidableEq

/-- Append one call to the trace. -/
def World.record (w : World) (e : Effect) : World :=
  { w with trace := w.trace ++ [e] }

/-- The answers of the collaborators and of the library functions the code
calls (`uuid`, `time`, `encoding/json`, `database/sql`, `net/http`). -/
structure Env where
  /-- The configured process definition key (`WorkflowService.processKey`). -/
  processKey : String
  /-- The method `UUID.String`. -/
  uuidString : UUID → String
  /-- The function `uuid.Parse`. -/
  uuidParse : String → Except String UUID
  /-- The function `uuid.New`. -/
  uuidNew : World → UUID
  /-- The expression `time.Now().UTC().Format(time.RFC3339)`. -/
  now : World → String
  /-- Failure of `Begin` inside `gorm.DB.Transaction`. -/
  dbBeginErr : World → Option String
  /-- Failure of `Commit` inside `gorm.DB.Transaction`. -/
  dbCommitErr : World → Option String
  /-- Failure of the INSERT issued by `Create`, other than a key clash. -/
  dbCreateErr : World → Ticket → Option String
  /-- Failure of the SELECT issued by `First`, other than a missing row. -/
  dbFindErr : World → UUID → Option String
  /-- Failure of the statement issued by `Save`. -/
  dbSaveErr : World → Ticket → Option String
  /-- The method `http.Client.Do`: a transport error or a response. -/
  httpDo : World → Request → Except String HttpResponse
  /-- Decoding of the start-instance response body into its `id`. -/
  decodeID : String → Except String String
  /-- Decoding of the fetch-and-lock response body. -/
  decodeTasks : String → Except String (List ExternalTask)
  /-- The publisher `WorkflowService.mq`; `none` is the nil interface. -/
  mq : Option (World → String → Payload → Option String)

/-! ## repository/ticket_repository.go -/

/-- The row with the given primary key, if any. -/
def findRow (id : UUID) (rows : List Ticket) : Option Ticket :=
  rows.find? (fun r => r.ID = id)

/-- The table after `Save`: the row with the ticket's primary key is
overwritten, and a ticket without a row is inserted. -/
def saveRow (t : Ticket) : List Ticket → List Ticket
  | [] => [t]
  | r :: rs => if r.ID = t.ID then t :: rs else r :: saveRow t rs

/-- The hook `Ticket.BeforeCreate`. -/
def BeforeCreate (env : Env) (t : Ticket) (w : World) : Ticket :=
  let t1 := if t.ID = UUID.Nil then { t with ID := env.uuidNew w } else t
  if t1.Status = "" then { t1 with Status := TicketStatusDraft } else t1

/-- The method `TicketRepository.Create`.  GORM runs the `BeforeCreate` hook
and inserts the row; `ID` is the primary key, so a row with a key already
present is refused.  The ticket is passed by pointer: the result carries it as
the hook left it. -/
def Create (env : Env) (ticket : Ticket) (w : World) : Option String × Ticket × World :=
  let t := BeforeCreate env ticket w
  let w1 := w.record (.dbCreate t)
  match env.dbCreateErr w t with
  | some e => (some e, t, w1)
  | none =>
    if w.tickets.any (fun r => r.ID = t.ID) then
      (some "duplicate key value violates unique constraint", t, w1)
    else
      (none, t, { w1 with tickets := w1.tickets ++ [t] })

/-- The method `TicketRepository.Update`. -/
def Update (env : Env) (ticket : Ticket) (w : World) : Option String × World :=
  let w1 := w.record (.dbSave ticket)
  match env.dbSaveErr w ticket with
  | some e => (some e, w1)
  | none => (none, { w1 with tickets := saveRow ticket w1.tickets })

/-- The method `TicketRepository.FindByID`. -/
def FindByID (env : Env) (id : UUID) (w : World) : Except String Ticket × World :=
  let w1 := w.record (.dbFind id)
  match env.dbFindErr w id with
  | some e => (.error e, w1)
  | none =>
    match findRow id w.tickets with
    | none => (.error "record not found", w1)
    | some t => (.ok t, w1)

/-! ## workflow/camunda_client.go -/

/-- The function `wrapVariables`; `none` is the nil map. -/
def wrapVariables {α : Type} (vars : Option (List (String × α))) : List (String × Wrapped α) :=
  match vars with
  | none => []
  | some kvs => kvs.map (fun kv => (kv.1, ⟨kv.2⟩))

/-- The method `CamundaClient.DeployProcess`; the definition is sent as the
multipart file `name.bpmn`. -/
def DeployProcess (env : Env) (name : String) (bpmn : List Nat) (w : World) :
    Option String × World :=
  let req := Request.deploy name bpmn
  let w1 := w.record (.http req)
  match env.httpDo w req with
  | .error e => (some e, w1)
  | .ok resp =>
    if resp.StatusCode ≥ 300 then
      (some ("camunda deploy failed: " ++ resp.Status), w1)
    else
      (none, w1)

/-- The method `CamundaClient.StartProcessInstance`. -/
def StartProcessInstance (env : Env) (key businessKey : String)
    (vars : Option Payload) (w : World) : Except String String × World :=
  let req := Request.start key (wrapVariables vars) businessKey
  let w1 := w.record (.http req)
  match env.httpDo w req with
  | .error e => (.error e, w1)
  | .ok resp =>
    if resp.StatusCode ≥ 300 then
      (.error ("failed to start process: " ++ resp.Status), w1)
    else
      match env.decodeID resp.Body with
      | .error e => (.error e, w1)
      | .ok id => (.ok id, w1)

/-- The method `time.Duration.Milliseconds`: a duration is a count of
nanoseconds and the division truncates. -/
def Milliseconds (d : Int) : Int := Int.tdiv d 1000000

/-- The method `CamundaClient.FetchAndLockExternalTasks`. -/
def FetchAndLockExternalTasks (env : Env) (workerID topic : String) (lockDuration : Int)
    (w : World) : Except String (List ExternalTask) × World :=
  let req := Request.fetchAndLock workerID 5 true topic (Milliseconds lockDuration)
  let w1 := w.record (.http req)
  match env.httpDo w req with
  | .error e => (.error e, w1)
  | .ok resp =>
    if resp.StatusCode ≥ 300 then
      (.error ("fetchAndLock failed: " ++ resp.Status), w1)
    else
      match env.decodeTasks resp.Body with
      | .error e => (.error e, w1)
      | .ok tasks => (.ok tasks, w1)

/-- The method `CamundaClient.CompleteExternalTask`. -/
def CompleteExternalTask (env : Env) (workerID taskID : String)
    (vars : Option Payload) (w : World) : Option String × World :=
  let req := Request.complete taskID workerID (wrapVariables vars)
  let w1 := w.record (.http req)
  match env.httpDo w req with
  | .error e => (some e, w1)
  | .ok resp =>
    if resp.StatusCode ≥ 300 then
      (some ("complete failed: " ++ resp.Status), w1)
    else
      (none, w1)

/-! ## service/workflow_service.go -/

/-- The nil check and the `Publish` call of `publishEvent`, for a payload
already built. -/
def publishPayload (env : Env) (event : String) (payload : Payload) (w : World) :
    Option String × World :=
  match env.mq with
  | none => (none, w)
  | some pub => (pub w event payload, w.record (.publish event payload))

/-- The payload `publishEvent` builds from a ticket. -/
def ticketPayload (env : Env) (event : String) (ticket : Ticket) (w : World) : Payload :=
  [("event", .str event),
   ("ticketId", .str (env.uuidString ticket.ID)),
   ("status", .str ticket.Status),
   ("processId", .str ticket.ProcessInstanceID),
   ("title", .str ticket.Title),
   ("requester", .str ticket.Requester),
   ("assignee", .str ticket.Assignee),
   ("occurredAt", .str (env.now w))]

/-- The method `WorkflowService.publishEvent`. -/
def publishEvent (env : Env) (event : String) (ticket : Ticket) (w : World) :
    Option String × World :=
  publishPayload env event (ticketPayload env event ticket w) w

/-- The method `WorkflowService.CreateTicket`. -/
def CreateTicket (env : Env) (ticket : Ticket) (w : World) : Option String × Ticket × World :=
  let ticket0 := { ticket with Status := TicketStatusDraft }
  match Create env ticket0 w with
  | (some err, t, w1) => (some err, t, w1)
  | (none, t, w1) =>
    match publishEvent env "ticket.created" t w1 with
    | (some err, w2) => (none, t, w2.record (.log ("publish ticket.created failed: " ++ err)))
    | (none, w2) => (none, t, w2)

/-- The closure `SubmitTicket` hands to `Transaction`. -/
def submitBody (env : Env) (ticketID : UUID) (w : World) : Option String × World :=
  match FindByID env ticketID w with
  | (.error err, w1) => (some err, w1)
  | (.ok ticket, w1) =>
    if ticket.Status ≠ TicketStatusDraft ∧ ticket.Status ≠ TicketStatusRejected then
      (some ("ticket " ++ env.uuidString ticket.ID ++ " cannot be submitted from status "
        ++ ticket.Status), w1)
    else
      match StartProcessInstance env env.processKey (env.uuidString ticket.ID)
          (some [("requester", .str ticket.Requester), ("title", .str ticket.Title)]) w1 with
      | (.error err, w2) => (some err, w2)
      | (.ok pid, w2) =>
        let ticket1 := { ticket with ProcessInstanceID := pid, Status := TicketStatusSubmitted }
        match Update env ticket1 w2 with
        | (some err, w3) => (some err, w3)
        | (none, w3) => publishEvent env "ticket.submitted" ticket1 w3

/-- The method `gorm.DB.Transaction`, as `SubmitTicket` uses it.  The closure
never touches the handle `tx` it is given: the repository runs every statement
on its own handle `r.db`, outside the transaction.  The transaction therefore
holds no statement, and neither `Rollback` nor a failed `Commit` undoes what
the closure wrote. -/
def Transaction (env : Env) (fc : World → Option String × World) (w : World) :
    Option String × World :=
  match env.dbBeginErr w with
  | some err => (some err, w)
  | none =>
    match fc w with
    | (some err, w1) => (some err, w1)
    | (none, w1) => (env.dbCommitErr w1, w1)

/-- The method `WorkflowService.SubmitTicket`. -/
def SubmitTicket (env : Env) (ticketID : UUID) (w : World) : Option String × World :=
  Transaction env (submitBody env ticketID) w

/-- The method `WorkflowService.RecordDecision`. -/
def RecordDecision (env : Env) (ticketID : UUID) (approved : Bool) (_comment : String)
    (w : World) : Option String × World :=
  match FindByID env ticketID w with
  | (.error err, w1) => (some err, w1)
  | (.ok ticket, w1) =>
    if ticket.Status ≠ TicketStatusSubmitted ∧ ticket.Status ≠ TicketStatusProcessing then
      (some ("ticket " ++ env.uuidString ticket.ID ++ " is not awaiting decision"), w1)
    else
      let ticket1 :=
        if approved then { ticket with Status := TicketStatusApproved }
        else { ticket with Status := TicketStatusRejected }
      match Update env ticket1 w1 with
      | (some err, w2) => (some err, w2)
      | (none, w2) =>
        match publishEvent env "ticket.decision" ticket1 w2 with
        | (some err, w3) => (none, w3.record (.log ("publish ticket.decision failed: " ++ err)))
        | (none, w3) => (none, w3)

/-- The method `WorkflowService.CompleteProcessing`. -/
def CompleteProcessing (env : Env) (ticketID : UUID) (w : World) : Option String × World :=
  match FindByID env ticketID w with
  | (.error err, w1) => (some err, w1)
  | (.ok ticket, w1) =>
    let ticket1 := { ticket with Status := TicketStatusCompleted }
    match Update env ticket1 w1 with
    | (some err, w2) => (some err, w2)
    | (none, w2) => publishEvent env "ticket.completed" ticket1 w2

/-- The method `WorkflowService.transitionToProcessing`. -/
def transitionToProcessing (env : Env) (ticketID : UUID) (w : World) : Option String × World :=
  match FindByID env ticketID w with
  | (.error err, w1) => (some err, w1)
  | (.ok ticket, w1) => Update env { ticket with Status := TicketStatusProcessing } w1

/-- The method `WorkflowService.HandleExternalTask`.  At its last statement
the source hands `publishEvent` the map with `ticketId` and `activity` in the
place of a ticket; the embedding publishes that map as the event payload. -/
def HandleExternalTask (env : Env) (task : ExternalTask) (w : World) : Option String × World :=
  if task.ActivityID = "ServiceTask_ProcessTicket" then
    match env.uuidParse task.BusinessKey with
    | .error err => (some ("invalid business key: " ++ err), w)
    | .ok ticketID =>
      let w1 := w.record (.log ("processing external task for ticket " ++ env.uuidString ticketID))
      match transitionToProcessing env ticketID w1 with
      | (some err, w2) => (some err, w2)
      | (none, w2) =>
        publishPayload env "ticket.processing"
          [("ticketId", .str (env.uuidString ticketID)), ("activity", .str task.ActivityID)] w2
  else
    (some ("unhandled activity " ++ task.ActivityID), w)

/-! ## worker/external_worker.go -/

/-- The fields of `ExternalWorker` the poll reads; `lock` is a
`time.Duration`, a count of nanoseconds. -/
structure ExternalWorker where
  id : String
  topic : String
  lock : Int
deriving DecidableEq

/-- The body of the loop of `ExternalWorker.poll`, run over the fetched
tasks. -/
def pollTasks (env : Env) (wk : ExternalWorker) : List ExternalTask → World → World
  | [], w => w
  | task :: rest, w =>
    match HandleExternalTask env task w with
    | (some err, w1) =>
      pollTasks env wk rest
        ((w1.record (.dispatch task (some err))).record
          (.log ("handle external task " ++ task.ID ++ " failed: " ++ err)))
    | (none, w1) =>
      let w2 := w1.record (.dispatch task none)
      match CompleteExternalTask env wk.id task.ID (some [("handledAt", .str (env.now w2))]) w2 with
      | (some err, w3) =>
        pollTasks env wk rest
          (w3.record (.log ("complete external task " ++ task.ID ++ " failed: " ++ err)))
      | (none, w3) => pollTasks env wk rest w3

/-- The method `ExternalWorker.poll`. -/
def poll (env : Env) (wk : ExternalWorker) (w : World) : World :=
  match FetchAndLockExternalTasks env wk.id wk.topic wk.lock w with
  | (.error err, w1) => w1.record (.log ("fetch external tasks error: " ++ err))
  | (.ok tasks, w1) => pollTasks env wk tasks w1

/-! ## Reading a trace -/

/-- The requests sent to the engine, oldest first. -/
def engineCalls (tr : List Effect) : List Request :=
  tr.filterMap (fun e => match e with | .http r => some r | _ => none)

/-- The tickets handed to `Create` or `Save`, oldest first. -/
def storeWrites (tr : List Effect) : List Ticket :=
  tr.filterMap (fun e => match e with | .dbSave t => some t | .dbCreate t => some t | _ => none)

/-- The identifiers looked up in the store, oldest first. -/
def storeReads (tr : List Effect) : List UUID :=
  tr.filterMap (fun e => match e with | .dbFind id => some id | _ => none)

/-- The events handed to the publisher, oldest first. -/
def published (tr : List Effect) : List (String × Payload) :=
  tr.filterMap (fun e => match e with | .publish k p => some (k, p) | _ => none)

/-- The tasks the poller dispatched, each with the error of its handling. -/
def dispatched (tr : List Effect) : List (ExternalTask × Option String) :=
  tr.filterMap (fun e => match e with | .dispatch t r => some (t, r) | _ => none)

/-- The complete-task calls, each as `(task identifier, worker identity)`. -/
def completions (tr : List Effect) : List (String × String) :=
  (engineCalls tr).filterMap
    (fun r => match r with | .complete tid wid _ => some (tid, wid) | _ => none)

/-! ## A concrete environment

A store, an engine and a bus that always answer, used to run the operations
on concrete tickets. -/

/-- The canonical text of an identifier: 32 hexadecimal digits in groups of
8-4-4-4-12. -/
def sampleString (u : UUID) : String :=
  let ds := Nat.toDigits 16 (u.val % 2 ^ 128)
  let cs := List.replicate (32 - ds.length) '0' ++ ds
  String.mk (cs.take 8 ++ ['-'] ++ (cs.drop 8).take 4 ++ ['-'] ++ (cs.drop 12).take 4
    ++ ['-'] ++ (cs.drop 16).take 4 ++ ['-'] ++ cs.drop 20)

/-- A parser that recognises the canonical text of the identifiers 0 to 15. -/
def sampleParse (s : String) : Except String UUID :=
  match (List.range 16).find? (fun n => sampleString ⟨n⟩ = s) with
  | some n => .ok ⟨n⟩
  | none => .error "invalid UUID format"

/-- An engine that accepts every request with `200 OK` and numbers its
answers. -/
def sampleHttp (w : World) (_r : Request) : Except String HttpResponse :=
  .ok { StatusCode := 200, Status := "200 OK",
        Body := "proc-" ++ Nat.repr ((engineCalls w.trace).length + 1) }

/-- A publisher whose transport is up. -/
def goodPublisher (_w : World) (_key : String) (_p : Payload) : Option String := none

/-- A publisher whose transport is down. -/
def downPublisher (_w : World) (_key : String) (_p : Payload) : Option String :=
  some "channel closed"

/-- The environment in which every collaborator answers. -/
def sampleEnv : Env where
  processKey := "ticket-process"
  uuidString := sampleString
  uuidParse := sampleParse
  uuidNew := fun _ => ⟨7⟩
  now := fun _ => "2024-01-01T00:00:00Z"
  dbBeginErr := fun _ => none
  dbCommitErr := fun _ => none
  dbCreateErr := fun _ _ => none
  dbFindErr := fun _ _ => none
  dbSaveErr := fun _ _ => none
  httpDo := sampleHttp
  decodeID := fun body => .ok body
  decodeTasks := fun _ => .ok []
  mq := some goodPublisher

/-- A ticket with identifier 1 in the given status. -/
def sampleTicket (status : TicketStatus) : Ticket :=
  { ID := ⟨1⟩, Title := "T", Description := "D", Requester := "R", Assignee := "",
    Status := status, ProcessInstanceID := "" }

/-- A world holding the sample ticket in the given status and an empty trace. -/
def sampleWorld (status : TicketStatus) : World :=
  { tickets := [sampleTicket status], trace := [] }

deriving instance DecidableEq for Except

/-- The sample environment with an engine that cannot be reached. -/
def engineDownEnv : Env :=
  { sampleEnv with httpDo := fun _ _ => .error "connection refused" }

/-- The sample environment with a publisher whose transport is down. -/
def busDownEnv : Env :=
  { sampleEnv with mq := some downPublisher }

/-- A task of the recognised activity whose business key is the text of the
sample ticket's identifier. -/
def sampleTask : ExternalTask :=
  { ID := "task-1", ProcessID := "proc-1", ActivityID := "ServiceTask_ProcessTicket",
    TopicName := "ticket-processing", BusinessKey := "00000000-0000-0000-0000-000000000001",
    VariablesRaw := [] }

/-! ## The operations of the coordinator, as one type -/

/-- A call of one of the status-changing operations of the coordinator. -/
inductive Operation where
  | submit (id : UUID)
  | decision (id : UUID) (approved : Bool) (comment : String)
  | complete (id : UUID)
  | handle (task : ExternalTask)

/-- Run the operation. -/
def Operation.run (env : Env) : Operation → World → Option String × World
  | .submit id, w => SubmitTicket env id w
  | .decision id approved comment, w => RecordDecision env id approved comment w
  | .complete id, w => CompleteProcessing env id w
  | .handle task, w => HandleExternalTask env task w

/-- The ticket the operation addresses. -/
def Operation.ticket (env : Env) : Operation → Option UUID
  | .submit id => some id
  | .decision id _ _ => some id
  | .complete id => some id
  | .handle task =>
    if task.ActivityID = "ServiceTask_ProcessTicket" then
      match env.uuidParse task.BusinessKey with
      | .ok id => some id
      | .error _ => none
    else none

/-- The status the operation assigns before it saves the ticket. -/
def Operation.target : Operation → TicketStatus
  | .submit _ => TicketStatusSubmitted
  | .decision _ approved _ => if approved then TicketStatusApproved else TicketStatusRejected
  | .complete _ => TicketStatusCompleted
  | .handle _ => TicketStatusProcessing

/-- The statuses the operation's own guard lets through; `CompleteProcessing`
and `transitionToProcessing` have no guard. -/
def Operation.eligible : Operation → TicketStatus → Prop
  | .submit _, s => s = TicketStatusDraft ∨ s = TicketStatusRejected
  | .decision _ _ _, s => s = TicketStatusSubmitted ∨ s = TicketStatusProcessing
  | .complete _, _ => True
  | .handle _, _ => True

/-- The seven edges of the state machine as the specification lists them:
draft→submitted, rejected→submitted, submitted→approved, submitted→rejected,
submitted→processing, processing→processing, processing→completed. -/
def specEdge (s s' : TicketStatus) : Bool :=
  (s == TicketStatusDraft && s' == TicketStatusSubmitted)
  || (s == TicketStatusRejected && s' == TicketStatusSubmitted)
  || (s == TicketStatusSubmitted && s' == TicketStatusApproved)
  || (s == TicketStatusSubmitted && s' == TicketStatusRejected)
  || (s == TicketStatusSubmitted && s' == TicketStatusProcessing)
  || (s == TicketStatusProcessing && s' == TicketStatusProcessing)
  || (s == TicketStatusProcessing && s' == TicketStatusCompleted)

/-- A task of an activity the coordinator does not know. -/
def strayTask : ExternalTask :=
  { ID := "task-2", ProcessID := "proc-1", ActivityID := "UserTask_Review",
    TopicName := "ticket-processing", BusinessKey := "00000000-0000-0000-0000-000000000001",
    VariablesRaw := [] }

/-- The sample environment with an engine whose fetch-and-lock answers with
the stray task followed by the sample task. -/
def batchEnv : Env :=
  { sampleEnv with decodeTasks := fun _ => .ok [strayTask, sampleTask] }

/-- A worker with a lock duration of one minute. -/
def sampleWorker : ExternalWorker :=
  { id := "worker-1", topic := "ticket-processing", lock := 60000000000 }

/-! ## Concurrent calls of SubmitTicket

One call of `SubmitTicket` reaches its collaborators six times: `Begin`,
`FindByID`, `StartProcessInstance`, `Update`, `Publish` and `Commit`.  The
repository runs on the handle `r.db`, not on the transaction's `tx`, so each
of these calls is a statement of its own, and two requests served
concurrently interleave at these points. -/

/-- Where one call of `SubmitTicket` stands: the call to a collaborator it
makes next, with the local variable `ticket`, or the error it returned. -/
inductive SubmitPC where
  | atBegin
  | atFind
  | atStart (ticket : Ticket)
  | atUpdate (ticket : Ticket)
  | atPublish (ticket : Ticket)
  | atCommit
  | done (err : Option String)
deriving DecidableEq

/-- One step of a call of `SubmitTicket`: the next call to a collaborator and
the code up to the one after. -/
def submitStep (env : Env) (ticketID : UUID) : SubmitPC → World → SubmitPC × World
  | .atBegin, w =>
    match env.dbBeginErr w with
    | some err => (.done (some err), w)
    | none => (.atFind, w)
  | .atFind, w =>
    match FindByID env ticketID w with
    | (.error err, w1) => (.done (some err), w1)
    | (.ok ticket, w1) =>
      if ticket.Status ≠ TicketStatusDraft ∧ ticket.Status ≠ TicketStatusRejected then
        (.done (some ("ticket " ++ env.uuidString ticket.ID
          ++ " cannot be submitted from status " ++ ticket.Status)), w1)
      else (.atStart ticket, w1)
  | .atStart ticket, w =>
    match StartProcessInstance env env.processKey (env.uuidString ticket.ID)
        (some [("requester", .str ticket.Requester), ("title", .str ticket.Title)]) w with
    | (.error err, w2) => (.done (some err), w2)
    | (.ok pid, w2) =>
      (.atUpdate { ticket with ProcessInstanceID := pid, Status := TicketStatusSubmitted }, w2)
  | .atUpdate ticket, w =>
    match Update env ticket w with
    | (some err, w3) => (.done (some err), w3)
    | (none, w3) => (.atPublish ticket, w3)
  | .atPublish ticket, w =>
    match publishEvent env "ticket.submitted" ticket w with
    | (some err, w4) => (.done (some err), w4)
    | (none, w4) => (.atCommit, w4)
  | .atCommit, w => (.done (env.dbCommitErr w), w)
  | .done err, w => (.done err, w)

/-- A call run alone for the given number of steps. -/
def runAlone (env : Env) (ticketID : UUID) : Nat → SubmitPC → World → SubmitPC × World
  | 0, pc, w => (pc, w)
  | n + 1, pc, w =>
    match submitStep env ticketID pc w with
    | (pc1, w1) => runAlone env ticketID n pc1 w1

/-- Two calls of `SubmitTicket` over one world. -/
structure Race where
  first : SubmitPC
  second : SubmitPC
  world : World
deriving DecidableEq

/-- Two calls run under a schedule: at `false` the first call takes a step, at
`true` the second. -/
def runRace (env : Env) (idA idB : UUID) : List Bool → Race → Race
  | [], r => r
  | false :: rest, r =>
    match submitStep env idA r.first r.world with
    | (pc, w) => runRace env idA idB rest { r with first := pc, world := w }
  | true :: rest, r =>
    match submitStep env idB r.second r.world with
    | (pc, w) => runRace env idA idB rest { r with second := pc, world := w }

/-- Two calls that have not started, over the given world. -/
def Race.init (w : World) : Race :=
  { first := .atBegin, second := .atBegin, world := w }

/-- The start-instance requests of a trace. -/
def startCalls (tr : List Effect) : List Request :=
  (engineCalls tr).filter (fun r => match r with | .start _ _ _ => true | _ => false)

/-- The schedule that runs the first call to its end, then the second. -/
def oneAfterTheOther : List Bool :=
  List.replicate 6 false ++ List.replicate 6 true

/-- The schedule in which the two calls take their steps in turn. -/
def inTurn : List Bool :=
  [false, true, false, true, false, true, false, true, false, true, false, true]

/-! ## The operations of the engine client, as one type -/

/-- A call of one of the four operations of `CamundaClient`. -/
inductive ClientCall where
  | deploy (name : String) (bpmn : List Nat)
  | start (key businessKey : String) (vars : Option Payload)
  | fetchAndLock (workerID topic : String) (lockDuration : Int)
  | complete (workerID taskID : String) (vars : Option Payload)

/-- The request the operation sends. -/
def ClientCall.request : ClientCall → Request
  | .deploy name bpmn => Request.deploy name bpmn
  | .start key businessKey vars => Request.start key (wrapVariables vars) businessKey
  | .fetchAndLock workerID topic lockDuration =>
    Request.fetchAndLock workerID 5 true topic (Milliseconds lockDuration)
  | .complete workerID taskID vars => Request.complete taskID workerID (wrapVariables vars)

/-- The error the operation returns; `none` when it returns none. -/
def ClientCall.err (env : Env) : ClientCall → World → Option String
  | .deploy name bpmn, w => (DeployProcess env name bpmn w).1
  | .start key businessKey vars, w =>
    match (StartProcessInstance env key businessKey vars w).1 with
    | .error e => some e
    | .ok _ => none
  | .fetchAndLock workerID topic lockDuration, w =>
    match (FetchAndLockExternalTasks env workerID topic lockDuration w).1 with
    | .error e => some e
    | .ok _ => none
  | .complete workerID taskID vars, w => (CompleteExternalTask env workerID taskID vars w).1

/-- The text with which the operation reports a refused response. -/
def ClientCall.refusal : ClientCall → String
  | .deploy _ _ => "camunda deploy failed: "
  | .start _ _ _ => "failed to start process: "
  | .fetchAndLock _ _ _ => "fetchAndLock failed: "
  | .complete _ _ _ => "complete failed: "

/-- What decoding the body into the given value gives: the decoder of
`encoding/json` fails with `EOF` on a body without content. -/
def decodeBody {α : Type} (value : α) (body : String) : Except String α :=
  if body = "" then .error "EOF" else .ok value

/-- The sample environment with an engine that answers every request with
`101 Switching Protocols` and no body. -/
def switchingEnv : Env :=
  { sampleEnv with
    httpDo := fun _ _ =>
      .ok { StatusCode := 101, Status := "101 Switching Protocols", Body := "" }
    decodeID := fun body => decodeBody body body
    decodeTasks := fun body => decodeBody [] body }

/-- The error of what the operation does with a response that passed the
status check: `DeployProcess` and `CompleteExternalTask` return, and
`StartProcessInstance` and `FetchAndLockExternalTasks` decode the body. -/
def ClientCall.decodeErr (env : Env) : ClientCall → String → Option String
  | .deploy _ _, _ => none
  | .start _ _ _, body =>
    match env.decodeID body with
    | .error e => some e
    | .ok _ => none
  | .fetchAndLock _ _ _, body =>
    match env.decodeTasks body with
    | .error e => some e
    | .ok _ => none
  | .complete _ _ _, _ => none

/-- The sample environment with an engine that answers every request with
`404 Not Found`. -/
def notFoundEnv : Env :=
  { sampleEnv with
    httpDo := fun _ _ => .ok { StatusCode := 404, Status := "404 Not Found", Body := "" } }

/-- An empty world. -/
def emptyWorld : World := { tickets := [], trace := [] }

/-- Six tasks of the recognised activity, `task-0` to `task-5`. -/
def sixTasks : List ExternalTask :=
  (List.range 6).map (fun n => { sampleTask with ID := "task-" ++ Nat.repr n })

/-- The sample environment with an engine whose fetch-and-lock answers with
six tasks. -/
def crowdedEnv : Env :=
  { sampleEnv with decodeTasks := fun _ => .ok sixTasks }

/-- The value a key is bound to in a map given as its list of entries. -/
def lookupKey {α : Type} (k : String) : List (String × α) → Option α
  | [] => none
  | (k1, v) :: rest => if k1 = k then some v else lookupKey k rest

/-- The sample environment with a store that refuses every INSERT. -/
def storeDownEnv : Env :=
  { sampleEnv with dbCreateErr := fun _ _ => some "connection reset" }

/-- A ticket as a caller may hand it to `CreateTicket`: no identifier and a
status of the caller's choice. -/
def newTicket (status : TicketStatus) : Ticket :=
  { ID := UUID.Nil, Title := "T", Description := "", Requester := "R", Assignee := "",
    Status := status, ProcessInstanceID := "" }

/-! # Properties -/

/-! ## The store -/

theorem findRow_id {id : UUID} {rows : List Ticket} {t : Ticket}
    (h : findRow id rows = some t) : t.ID = id := by
  unfold findRow at h
  have := List.find?_some h
  simpa using this

theorem findRow_saveRow (t : Ticket) (id : UUID) (rows : List Ticket) :
    findRow id (saveRow t rows) = if t.ID = id then some t else findRow id rows := by
  induction rows with
  | nil =>
    by_cases ht : t.ID = id <;> simp [saveRow, findRow, List.find?_cons, ht]
  | cons r rs ih =>
    unfold findRow at ih ⊢
    by_cases hr : r.ID = t.ID
    · by_cases ht : t.ID = id
      · simp [saveRow, hr, ht, List.find?_cons]
      · have h1 : ¬ r.ID = id := by rw [hr]; exact ht
        simp [saveRow, hr, ht, List.find?_cons]
    · by_cases hid : r.ID = id
      · have h1 : ¬ t.ID = id := fun h => hr (hid.trans h.symm)
        have h2 : ¬ id = t.ID := fun h => h1 h.symm
        simp [saveRow, hid, h1, h2, List.find?_cons]
      · simp [saveRow, hr, hid, List.find?_cons, ih]

theorem saveRow_same {t : Ticket} {rows : List Ticket}
    (h : findRow t.ID rows = some t) : saveRow t rows = rows := by
  induction rows with
  | nil => simp [findRow] at h
  | cons r rs ih =>
    unfold findRow at h ih
    by_cases hr : r.ID = t.ID
    · simp [List.find?, hr] at h
      simp [saveRow, hr, h]
    · simp [List.find?, hr] at h
      simp [saveRow, hr, ih h]

/-! ## Traces -/

@[simp] theorem record_trace (w : World) (e : Effect) : (w.record e).trace = w.trace ++ [e] := rfl

@[simp] theorem record_tickets (w : World) (e : Effect) : (w.record e).tickets = w.tickets := rfl

@[simp] theorem engineCalls_append (a b : List Effect) :
    engineCalls (a ++ b) = engineCalls a ++ engineCalls b := by
  simp [engineCalls]

@[simp] theorem storeWrites_append (a b : List Effect) :
    storeWrites (a ++ b) = storeWrites a ++ storeWrites b := by
  simp [storeWrites]

@[simp] theorem storeReads_append (a b : List Effect) :
    storeReads (a ++ b) = storeReads a ++ storeReads b := by
  simp [storeReads]

@[simp] theorem published_append (a b : List Effect) :
    published (a ++ b) = published a ++ published b := by
  simp [published]

@[simp] theorem dispatched_append (a b : List Effect) :
    dispatched (a ++ b) = dispatched a ++ dispatched b := by
  simp [dispatched]

@[simp] theorem completions_append (a b : List Effect) :
    completions (a ++ b) = completions a ++ completions b := by
  simp [completions, engineCalls]

/-! ## The calls of the repository and of the engine client -/

theorem FindByID_world (env : Env) (id : UUID) (w : World) :
    (FindByID env id w).2 = w.record (.dbFind id) := by
  unfold FindByID
  cases env.dbFindErr w id with
  | some e => rfl
  | none => cases findRow id w.tickets <;> rfl

theorem FindByID_found {env : Env} {id : UUID} {w : World} {t : Ticket}
    (hfind : env.dbFindErr w id = none) (hrow : findRow id w.tickets = some t) :
    FindByID env id w = (.ok t, w.record (.dbFind id)) := by
  simp [FindByID, hfind, hrow]

theorem FindByID_ok_row {env : Env} {id : UUID} {w : World} {t : Ticket}
    (h : (FindByID env id w).1 = .ok t) : findRow id w.tickets = some t := by
  unfold FindByID at h
  cases hf : env.dbFindErr w id with
  | some e => simp [hf] at h
  | none =>
    cases hr : findRow id w.tickets with
    | none => simp [hf, hr] at h
    | some r => simp [hf, hr] at h; rw [h]

theorem StartProcessInstance_world (env : Env) (key bk : String) (vars : Option Payload)
    (w : World) :
    (StartProcessInstance env key bk vars w).2
      = w.record (.http (Request.start key (wrapVariables vars) bk)) := by
  unfold StartProcessInstance
  dsimp only
  split
  · rfl
  · split
    · rfl
    · split <;> rfl

theorem Update_trace (env : Env) (t : Ticket) (w : World) :
    (Update env t w).2.trace = w.trace ++ [.dbSave t] := by
  unfold Update
  cases env.dbSaveErr w t <;> rfl

theorem Update_tickets (env : Env) (t : Ticket) (w : World) :
    (Update env t w).2.tickets
      = if (Update env t w).1 = none then saveRow t w.tickets else w.tickets := by
  unfold Update
  cases env.dbSaveErr w t <;> simp

theorem publishPayload_tickets (env : Env) (event : String) (pl : Payload) (w : World) :
    (publishPayload env event pl w).2.tickets = w.tickets := by
  unfold publishPayload
  cases env.mq <;> rfl

theorem publishPayload_engineCalls (env : Env) (event : String) (pl : Payload) (w : World) :
    engineCalls (publishPayload env event pl w).2.trace = engineCalls w.trace := by
  unfold publishPayload
  cases env.mq <;> simp [engineCalls]

theorem publishPayload_storeWrites (env : Env) (event : String) (pl : Payload) (w : World) :
    storeWrites (publishPayload env event pl w).2.trace = storeWrites w.trace := by
  unfold publishPayload
  cases env.mq <;> simp [storeWrites]

/-! ## SubmitTicket -/

/-- C1: for a stored ticket whose status is neither draft nor rejected,
`SubmitTicket` fails; when the store can be read the message is
`ticket ID cannot be submitted from status STATUS`, naming the ticket and the
offending status; no request is sent to the engine, no write is issued to the
store, the table is unchanged and the ticket keeps its status and its
process-instance reference. -/
theorem submit_rejects_ineligible_status (env : Env) (w : World) (id : UUID) (t : Ticket)
    (hrow : findRow id w.tickets = some t)
    (hs : t.Status ≠ TicketStatusDraft ∧ t.Status ≠ TicketStatusRejected) :
    (SubmitTicket env id w).1 ≠ none
    ∧ (env.dbBeginErr w = none → env.dbFindErr w id = none →
        (SubmitTicket env id w).1 = some ("ticket " ++ env.uuidString t.ID
          ++ " cannot be submitted from status " ++ t.Status))
    ∧ engineCalls (SubmitTicket env id w).2.trace = engineCalls w.trace
    ∧ storeWrites (SubmitTicket env id w).2.trace = storeWrites w.trace
    ∧ (SubmitTicket env id w).2.tickets = w.tickets
    ∧ findRow id (SubmitTicket env id w).2.tickets = some t := by
  unfold SubmitTicket Transaction submitBody FindByID
  cases hb : env.dbBeginErr w with
  | some e => simp [hrow]
  | none =>
    cases hf : env.dbFindErr w id with
    | some e => simp [hrow, engineCalls, storeWrites]
    | none => simp [hrow, hs, engineCalls, storeWrites]

/-- Scenario C: submitting the sample ticket while it is approved. -/
theorem submit_rejects_ineligible_status_witness :
    (findRow ⟨1⟩ (sampleWorld "approved").tickets = some (sampleTicket "approved")
      ∧ (sampleTicket "approved").Status ≠ TicketStatusDraft
      ∧ (sampleTicket "approved").Status ≠ TicketStatusRejected)
    ∧ (SubmitTicket sampleEnv ⟨1⟩ (sampleWorld "approved")).1 = some
        "ticket 00000000-0000-0000-0000-000000000001 cannot be submitted from status approved"
    ∧ (SubmitTicket sampleEnv ⟨1⟩ (sampleWorld "approved")).2.tickets
        = (sampleWorld "approved").tickets :=
  ⟨by decide,
   (submit_rejects_ineligible_status sampleEnv (sampleWorld "approved") ⟨1⟩
      (sampleTicket "approved") (by decide) (by decide)).2.1 rfl rfl,
   (submit_rejects_ineligible_status sampleEnv (sampleWorld "approved") ⟨1⟩
      (sampleTicket "approved") (by decide) (by decide)).2.2.2.2.1⟩

/-- C2: for a stored ticket in status draft or rejected, when the store can
be read, the start-instance call answers `p` and the write succeeds,
`SubmitTicket` sends exactly one request to the engine, the start request with
the configured key, business key the ticket's identifier string and variables
`requester` and `title` in wrapped form; afterwards the stored ticket is the
old one with status submitted and process-instance reference `p`, and every
other row is as before. -/
theorem submit_starts_and_persists (env : Env) (w : World) (id : UUID) (t : Ticket) (p : String)
    (hrow : findRow id w.tickets = some t)
    (hs : t.Status = TicketStatusDraft ∨ t.Status = TicketStatusRejected)
    (hbegin : env.dbBeginErr w = none)
    (hfind : env.dbFindErr w id = none)
    (hstart : (StartProcessInstance env env.processKey (env.uuidString t.ID)
        (some [("requester", .str t.Requester), ("title", .str t.Title)])
        (FindByID env id w).2).1 = .ok p)
    (hsave : (Update env { t with ProcessInstanceID := p, Status := TicketStatusSubmitted }
        (StartProcessInstance env env.processKey (env.uuidString t.ID)
          (some [("requester", .str t.Requester), ("title", .str t.Title)])
          (FindByID env id w).2).2).1 = none) :
    engineCalls (SubmitTicket env id w).2.trace = engineCalls w.trace ++
        [Request.start env.processKey
          [("requester", ⟨.str t.Requester⟩), ("title", ⟨.str t.Title⟩)] (env.uuidString id)]
    ∧ findRow id (SubmitTicket env id w).2.tickets
        = some { t with ProcessInstanceID := p, Status := TicketStatusSubmitted }
    ∧ ∀ other, other ≠ id →
        findRow other (SubmitTicket env id w).2.tickets = findRow other w.tickets := by
  have hid : t.ID = id := findRow_id hrow
  have hst : ¬ (t.Status ≠ TicketStatusDraft ∧ t.Status ≠ TicketStatusRejected) := by
    rcases hs with h | h <;> simp [h]
  rw [FindByID_found hfind hrow] at hstart hsave
  rw [StartProcessInstance_world] at hsave
  have hupd := Update_tickets env { t with ProcessInstanceID := p, Status := TicketStatusSubmitted }
    ((w.record (.dbFind id)).record (.http (Request.start env.processKey (wrapVariables
      (some [("requester", Value.str t.Requester), ("title", Value.str t.Title)]))
      (env.uuidString t.ID))))
  have htr := Update_trace env { t with ProcessInstanceID := p, Status := TicketStatusSubmitted }
    ((w.record (.dbFind id)).record (.http (Request.start env.processKey (wrapVariables
      (some [("requester", Value.str t.Requester), ("title", Value.str t.Title)]))
      (env.uuidString t.ID))))
  rw [hsave] at hupd
  simp only [if_true] at hupd
  unfold SubmitTicket Transaction submitBody
  simp only [hbegin, FindByID_found hfind hrow, hst, if_false]
  cases hsp : StartProcessInstance env env.processKey (env.uuidString t.ID)
      (some [("requester", .str t.Requester), ("title", .str t.Title)])
      (w.record (.dbFind id)) with
  | mk r w2 =>
    have hw2 := StartProcessInstance_world env env.processKey (env.uuidString t.ID)
      (some [("requester", .str t.Requester), ("title", .str t.Title)]) (w.record (.dbFind id))
    rw [hsp] at hstart hw2
    simp only at hstart hw2
    subst hstart hw2
    simp only []
    cases hu : Update env { t with ProcessInstanceID := p, Status := TicketStatusSubmitted }
      ((w.record (.dbFind id)).record (.http (Request.start env.processKey (wrapVariables
        (some [("requester", Value.str t.Requester), ("title", Value.str t.Title)]))
        (env.uuidString t.ID)))) with
    | mk e w3 =>
      rw [hu] at hsave hupd htr
      simp only at hsave hupd htr
      subst hsave
      simp only []
      have key : ∀ q : Option String × World,
          q = publishEvent env "ticket.submitted"
            { t with ProcessInstanceID := p, Status := TicketStatusSubmitted } w3 →
          (match q with
            | (some err, w1) => ((some err, w1) : Option String × World)
            | (none, w1) => (env.dbCommitErr w1, w1)).2 = q.2 := by
        rintro ⟨a, b⟩ _
        cases a <;> rfl
      rw [key _ rfl]
      unfold publishEvent
      rw [publishPayload_tickets, publishPayload_engineCalls, htr, hupd]
      refine ⟨?_, ?_, ?_⟩
      · simp [engineCalls, wrapVariables, hid]
      · simp [findRow_saveRow, hid]
      · intro other ho
        have : ¬ id = other := fun h => ho h.symm
        simp [findRow_saveRow, hid, this]

/-- Scenario B: submitting the sample ticket while it is a draft. -/
theorem submit_starts_and_persists_witness :
    (findRow ⟨1⟩ (sampleWorld "draft").tickets = some (sampleTicket "draft")
      ∧ (sampleTicket "draft").Status = TicketStatusDraft)
    ∧ engineCalls (SubmitTicket sampleEnv ⟨1⟩ (sampleWorld "draft")).2.trace =
        [Request.start "ticket-process"
          [("requester", ⟨.str "R"⟩), ("title", ⟨.str "T"⟩)]
          "00000000-0000-0000-0000-000000000001"]
    ∧ findRow ⟨1⟩ (SubmitTicket sampleEnv ⟨1⟩ (sampleWorld "draft")).2.tickets
        = some { sampleTicket "draft" with
            ProcessInstanceID := "proc-1", Status := TicketStatusSubmitted } :=
  ⟨by decide,
   (submit_starts_and_persists sampleEnv (sampleWorld "draft") ⟨1⟩ (sampleTicket "draft")
      "proc-1" (by decide) (Or.inl rfl) rfl rfl (by decide) (by decide)).1,
   (submit_starts_and_persists sampleEnv (sampleWorld "draft") ⟨1⟩ (sampleTicket "draft")
      "proc-1" (by decide) (Or.inl rfl) rfl rfl (by decide) (by decide)).2.1⟩

/-- C3: for a stored ticket in status draft or rejected, when the store can
be read and the start-instance call fails with `e`, `SubmitTicket` returns
`e`, issues no write to the store and publishes no event; the table is
unchanged, so the ticket keeps its status and its process-instance
reference. -/
theorem submit_engine_failure_changes_nothing (env : Env) (w : World) (id : UUID) (t : Ticket)
    (e : String)
    (hrow : findRow id w.tickets = some t)
    (hs : t.Status = TicketStatusDraft ∨ t.Status = TicketStatusRejected)
    (hbegin : env.dbBeginErr w = none)
    (hfind : env.dbFindErr w id = none)
    (hstart : (StartProcessInstance env env.processKey (env.uuidString t.ID)
        (some [("requester", .str t.Requester), ("title", .str t.Title)])
        (FindByID env id w).2).1 = .error e) :
    (SubmitTicket env id w).1 = some e
    ∧ storeWrites (SubmitTicket env id w).2.trace = storeWrites w.trace
    ∧ published (SubmitTicket env id w).2.trace = published w.trace
    ∧ (SubmitTicket env id w).2.tickets = w.tickets
    ∧ findRow id (SubmitTicket env id w).2.tickets = some t := by
  have hst : ¬ (t.Status ≠ TicketStatusDraft ∧ t.Status ≠ TicketStatusRejected) := by
    rcases hs with h | h <;> simp [h]
  rw [FindByID_found hfind hrow] at hstart
  unfold SubmitTicket Transaction submitBody
  simp only [hbegin, FindByID_found hfind hrow, hst, if_false]
  cases hsp : StartProcessInstance env env.processKey (env.uuidString t.ID)
      (some [("requester", .str t.Requester), ("title", .str t.Title)])
      (w.record (.dbFind id)) with
  | mk r w2 =>
    have hw2 := StartProcessInstance_world env env.processKey (env.uuidString t.ID)
      (some [("requester", .str t.Requester), ("title", .str t.Title)]) (w.record (.dbFind id))
    rw [hsp] at hstart hw2
    simp only at hstart hw2
    subst hstart hw2
    simp [storeWrites, published, hrow]

/-- The sample draft submitted while the engine cannot be reached. -/
theorem submit_engine_failure_changes_nothing_witness :
    (findRow ⟨1⟩ (sampleWorld "draft").tickets = some (sampleTicket "draft")
      ∧ (sampleTicket "draft").Status = TicketStatusDraft)
    ∧ (SubmitTicket engineDownEnv ⟨1⟩ (sampleWorld "draft")).1 = some "connection refused"
    ∧ (SubmitTicket engineDownEnv ⟨1⟩ (sampleWorld "draft")).2.tickets
        = (sampleWorld "draft").tickets :=
  ⟨by decide,
   (submit_engine_failure_changes_nothing engineDownEnv (sampleWorld "draft") ⟨1⟩
      (sampleTicket "draft") "connection refused" (by decide) (Or.inl rfl) rfl rfl
      (by decide)).1,
   (submit_engine_failure_changes_nothing engineDownEnv (sampleWorld "draft") ⟨1⟩
      (sampleTicket "draft") "connection refused" (by decide) (Or.inl rfl) rfl rfl
      (by decide)).2.2.2.1⟩

/-! ## Publishing -/

/-- C4: with a working store and engine and a publisher whose transport is
down, `SubmitTicket`, `CompleteProcessing` and `HandleExternalTask` return the
publisher's error although they return no error when the transport is up; the
table they leave is the same in both cases.  `CreateTicket` and
`RecordDecision` return no error in both cases. -/
theorem publish_failure_is_returned :
    ((SubmitTicket sampleEnv ⟨1⟩ (sampleWorld "draft")).1 = none
      ∧ (SubmitTicket busDownEnv ⟨1⟩ (sampleWorld "draft")).1 = some "channel closed"
      ∧ (SubmitTicket busDownEnv ⟨1⟩ (sampleWorld "draft")).2.tickets
          = (SubmitTicket sampleEnv ⟨1⟩ (sampleWorld "draft")).2.tickets)
    ∧ ((CompleteProcessing sampleEnv ⟨1⟩ (sampleWorld "processing")).1 = none
      ∧ (CompleteProcessing busDownEnv ⟨1⟩ (sampleWorld "processing")).1 = some "channel closed"
      ∧ (CompleteProcessing busDownEnv ⟨1⟩ (sampleWorld "processing")).2.tickets
          = (CompleteProcessing sampleEnv ⟨1⟩ (sampleWorld "processing")).2.tickets)
    ∧ ((HandleExternalTask sampleEnv sampleTask (sampleWorld "submitted")).1 = none
      ∧ (HandleExternalTask busDownEnv sampleTask (sampleWorld "submitted")).1
          = some "channel closed"
      ∧ (HandleExternalTask busDownEnv sampleTask (sampleWorld "submitted")).2.tickets
          = (HandleExternalTask sampleEnv sampleTask (sampleWorld "submitted")).2.tickets)
    ∧ ((CreateTicket sampleEnv (sampleTicket "") { tickets := [], trace := [] }).1 = none
      ∧ (CreateTicket busDownEnv (sampleTicket "") { tickets := [], trace := [] }).1 = none)
    ∧ ((RecordDecision sampleEnv ⟨1⟩ true "ok" (sampleWorld "submitted")).1 = none
      ∧ (RecordDecision busDownEnv ⟨1⟩ true "ok" (sampleWorld "submitted")).1 = none) := by
  decide

/-! ## The table after an operation -/

theorem publishEvent_tickets (env : Env) (event : String) (t : Ticket) (w : World) :
    (publishEvent env event t w).2.tickets = w.tickets :=
  publishPayload_tickets env event _ w

theorem Transaction_tickets (env : Env) (fc : World → Option String × World) (w : World) :
    (Transaction env fc w).2.tickets = w.tickets ∨
    (Transaction env fc w).2.tickets = (fc w).2.tickets := by
  unfold Transaction
  split
  · exact Or.inl rfl
  · split <;> rename_i h <;> right <;> rw [h]

theorem submitBody_tickets (env : Env) (id : UUID) (w : World) :
    (submitBody env id w).2.tickets = w.tickets ∨
    ∃ t p, findRow id w.tickets = some t
      ∧ (t.Status = TicketStatusDraft ∨ t.Status = TicketStatusRejected)
      ∧ (submitBody env id w).2.tickets
          = saveRow { t with ProcessInstanceID := p, Status := TicketStatusSubmitted } w.tickets := by
  unfold submitBody
  cases hF : FindByID env id w with
  | mk r w1 =>
    have hw1 := FindByID_world env id w
    rw [hF] at hw1
    simp only at hw1
    subst hw1
    cases r with
    | error e => left; rfl
    | ok t =>
      have hrow : findRow id w.tickets = some t := FindByID_ok_row (by rw [hF])
      simp only []
      split
      · left; rfl
      · rename_i hg
        have hs : t.Status = TicketStatusDraft ∨ t.Status = TicketStatusRejected := by
          by_contra hc
          exact hg ⟨fun h => hc (Or.inl h), fun h => hc (Or.inr h)⟩
        split
        · rename_i e w2 hS
          left
          have := StartProcessInstance_world env env.processKey (env.uuidString t.ID)
            (some [("requester", .str t.Requester), ("title", .str t.Title)])
            (w.record (.dbFind id))
          rw [hS] at this
          simp only at this
          rw [this]; rfl
        · rename_i pid w2 hS
          have hw2 := StartProcessInstance_world env env.processKey (env.uuidString t.ID)
            (some [("requester", .str t.Requester), ("title", .str t.Title)])
            (w.record (.dbFind id))
          rw [hS] at hw2
          simp only at hw2
          have hU := Update_tickets env
            { t with ProcessInstanceID := pid, Status := TicketStatusSubmitted } w2
          split
          · rename_i e w3 hUp
            left
            rw [hUp] at hU
            simp only at hU
            rw [hU, hw2]; simp
          · rename_i w3 hUp
            right
            refine ⟨t, pid, hrow, hs, ?_⟩
            rw [hUp] at hU
            simp only at hU
            rw [publishEvent_tickets, hU, hw2]; simp

theorem SubmitTicket_tickets (env : Env) (id : UUID) (w : World) :
    (SubmitTicket env id w).2.tickets = w.tickets ∨
    ∃ t p, findRow id w.tickets = some t
      ∧ (t.Status = TicketStatusDraft ∨ t.Status = TicketStatusRejected)
      ∧ (SubmitTicket env id w).2.tickets
          = saveRow { t with ProcessInstanceID := p, Status := TicketStatusSubmitted } w.tickets := by
  unfold SubmitTicket
  rcases Transaction_tickets env (submitBody env id) w with h | h
  · exact Or.inl h
  · rw [h]
    exact submitBody_tickets env id w

theorem RecordDecision_tickets (env : Env) (id : UUID) (approved : Bool) (c : String)
    (w : World) :
    ((RecordDecision env id approved c w).1 ≠ none
      ∧ (RecordDecision env id approved c w).2.tickets = w.tickets
      ∧ published (RecordDecision env id approved c w).2.trace = published w.trace) ∨
    ∃ t, findRow id w.tickets = some t
      ∧ (t.Status = TicketStatusSubmitted ∨ t.Status = TicketStatusProcessing)
      ∧ (RecordDecision env id approved c w).1 = none
      ∧ (RecordDecision env id approved c w).2.tickets
          = saveRow { t with Status :=
              if approved then TicketStatusApproved else TicketStatusRejected } w.tickets := by
  unfold RecordDecision
  cases hF : FindByID env id w with
  | mk r w1 =>
    have hw1 := FindByID_world env id w
    rw [hF] at hw1
    simp only at hw1
    subst hw1
    cases r with
    | error e => left; simp [published]
    | ok t =>
      have hrow : findRow id w.tickets = some t := FindByID_ok_row (by rw [hF])
      simp only []
      split
      · left; simp [published]
      · rename_i hg
        have hs : t.Status = TicketStatusSubmitted ∨ t.Status = TicketStatusProcessing := by
          by_contra hc
          exact hg ⟨fun h => hc (Or.inl h), fun h => hc (Or.inr h)⟩
        have hU := Update_tickets env
          (if approved then { t with Status := TicketStatusApproved }
            else { t with Status := TicketStatusRejected }) (w.record (.dbFind id))
        have ht1 : (if approved then { t with Status := TicketStatusApproved }
            else { t with Status := TicketStatusRejected })
            = { t with Status := if approved then TicketStatusApproved
                else TicketStatusRejected } := by
          cases approved <;> rfl
        split
        · rename_i e w2 hUp
          left
          have hT := Update_trace env
            (if approved then { t with Status := TicketStatusApproved }
              else { t with Status := TicketStatusRejected }) (w.record (.dbFind id))
          rw [hUp] at hU hT
          simp only at hU hT
          refine ⟨by simp, ?_, ?_⟩
          · rw [hU]; simp
          · rw [hT]; simp [published]
        · rename_i w2 hUp
          right
          refine ⟨t, hrow, hs, ?_, ?_⟩
          · split <;> rfl
          · rw [hUp] at hU
            simp only at hU
            have hp := publishEvent_tickets env "ticket.decision"
              (if approved then { t with Status := TicketStatusApproved }
                else { t with Status := TicketStatusRejected }) w2
            split
            · rename_i e w3 hP
              rw [hP] at hp
              simp only at hp
              simp only [record_tickets]
              rw [hp, hU, ← ht1]; simp
            · rename_i w3 hP
              rw [hP] at hp
              simp only at hp
              rw [hp, hU, ← ht1]; simp

theorem CompleteProcessing_tickets (env : Env) (id : UUID) (w : World) :
    (CompleteProcessing env id w).2.tickets = w.tickets ∨
    ∃ t, findRow id w.tickets = some t
      ∧ (CompleteProcessing env id w).2.tickets
          = saveRow { t with Status := TicketStatusCompleted } w.tickets := by
  unfold CompleteProcessing
  cases hF : FindByID env id w with
  | mk r w1 =>
    have hw1 := FindByID_world env id w
    rw [hF] at hw1
    simp only at hw1
    subst hw1
    cases r with
    | error e => left; rfl
    | ok t =>
      have hrow : findRow id w.tickets = some t := FindByID_ok_row (by rw [hF])
      simp only []
      have hU := Update_tickets env { t with Status := TicketStatusCompleted }
        (w.record (.dbFind id))
      split
      · rename_i e w2 hUp
        left
        rw [hUp] at hU
        simp only at hU
        rw [hU]; simp
      · rename_i w2 hUp
        right
        refine ⟨t, hrow, ?_⟩
        rw [hUp] at hU
        simp only at hU
        rw [publishEvent_tickets, hU]; simp

theorem transitionToProcessing_tickets (env : Env) (id : UUID) (w : World) :
    (transitionToProcessing env id w).2.tickets = w.tickets ∨
    ∃ t, findRow id w.tickets = some t
      ∧ (transitionToProcessing env id w).1 = none
      ∧ (transitionToProcessing env id w).2.tickets
          = saveRow { t with Status := TicketStatusProcessing } w.tickets := by
  unfold transitionToProcessing
  cases hF : FindByID env id w with
  | mk r w1 =>
    have hw1 := FindByID_world env id w
    rw [hF] at hw1
    simp only at hw1
    subst hw1
    cases r with
    | error e => left; rfl
    | ok t =>
      have hrow : findRow id w.tickets = some t := FindByID_ok_row (by rw [hF])
      simp only []
      have hU := Update_tickets env { t with Status := TicketStatusProcessing }
        (w.record (.dbFind id))
      by_cases hn : (Update env { t with Status := TicketStatusProcessing }
          (w.record (.dbFind id))).1 = none
      · right
        refine ⟨t, hrow, hn, ?_⟩
        rw [hU]; simp [hn]
      · left
        rw [hU]; simp [hn]

theorem HandleExternalTask_tickets (env : Env) (task : ExternalTask) (w : World) :
    (HandleExternalTask env task w).2.tickets = w.tickets ∨
    ∃ id t, task.ActivityID = "ServiceTask_ProcessTicket"
      ∧ env.uuidParse task.BusinessKey = .ok id
      ∧ findRow id w.tickets = some t
      ∧ (HandleExternalTask env task w).2.tickets
          = saveRow { t with Status := TicketStatusProcessing } w.tickets := by
  unfold HandleExternalTask
  split
  · rename_i hact
    split
    · left; rfl
    · rename_i id hparse
      simp only []
      rcases transitionToProcessing_tickets env id
        (w.record (.log ("processing external task for ticket " ++ env.uuidString id)))
        with h | ⟨t, hrow, hn, h⟩
      · left
        split
        · rename_i e w2 hT
          rw [hT] at h; exact h
        · rename_i w2 hT
          rw [hT] at h
          rw [publishPayload_tickets]; exact h
      · right
        refine ⟨id, t, hact, hparse, hrow, ?_⟩
        split
        · rename_i e w2 hT
          rw [hT] at hn; simp at hn
        · rename_i w2 hT
          rw [hT] at h
          rw [publishPayload_tickets]; exact h
  · left; rfl

theorem SubmitTicket_guard {env : Env} {id : UUID} {w : World} {t : Ticket}
    (hrow : findRow id w.tickets = some t)
    (hs : ¬ (t.Status = TicketStatusDraft ∨ t.Status = TicketStatusRejected)) :
    (SubmitTicket env id w).1 ≠ none ∧ (SubmitTicket env id w).2.tickets = w.tickets := by
  have hs2 : t.Status ≠ TicketStatusDraft ∧ t.Status ≠ TicketStatusRejected :=
    ⟨fun h => hs (Or.inl h), fun h => hs (Or.inr h)⟩
  unfold SubmitTicket Transaction submitBody FindByID
  cases hb : env.dbBeginErr w with
  | some e => simp
  | none =>
    cases hf : env.dbFindErr w id with
    | some e => simp
    | none => simp [hrow, hs2]

theorem RecordDecision_guard (env : Env) (id : UUID) (approved : Bool) (c : String)
    (w : World) {t : Ticket}
    (hrow : findRow id w.tickets = some t)
    (hs : ¬ (t.Status = TicketStatusSubmitted ∨ t.Status = TicketStatusProcessing)) :
    (RecordDecision env id approved c w).1 ≠ none
    ∧ (RecordDecision env id approved c w).2.tickets = w.tickets := by
  rcases RecordDecision_tickets env id approved c w with h | ⟨t2, hrow2, hs2, _⟩
  · exact ⟨h.1, h.2.1⟩
  · rw [hrow] at hrow2
    cases hrow2
    exact absurd hs2 hs

/-- The table after an operation is the old one, or the old one with the
addressed ticket saved under the operation's target status. -/
theorem run_tickets (env : Env) (op : Operation) (w : World) :
    (op.run env w).2.tickets = w.tickets ∨
    ∃ id t t1, op.ticket env = some id ∧ findRow id w.tickets = some t
      ∧ op.eligible t.Status ∧ t1.ID = t.ID ∧ t1.Status = op.target
      ∧ (op.run env w).2.tickets = saveRow t1 w.tickets := by
  cases op with
  | submit id =>
    rcases SubmitTicket_tickets env id w with h | ⟨t, p, hrow, hs, h⟩
    · exact Or.inl h
    · exact Or.inr ⟨id, t, { t with ProcessInstanceID := p, Status := TicketStatusSubmitted },
        rfl, hrow, hs, rfl, rfl, h⟩
  | decision id approved c =>
    rcases RecordDecision_tickets env id approved c w with h | ⟨t, hrow, hs, _, h⟩
    · exact Or.inl h.2.1
    · exact Or.inr ⟨id, t, { t with Status :=
          if approved then TicketStatusApproved else TicketStatusRejected },
        rfl, hrow, hs, rfl, rfl, h⟩
  | complete id =>
    rcases CompleteProcessing_tickets env id w with h | ⟨t, hrow, h⟩
    · exact Or.inl h
    · exact Or.inr ⟨id, t, { t with Status := TicketStatusCompleted },
        rfl, hrow, trivial, rfl, rfl, h⟩
  | handle task =>
    rcases HandleExternalTask_tickets env task w with h | ⟨id, t, hact, hparse, hrow, h⟩
    · exact Or.inl h
    · refine Or.inr ⟨id, t, { t with Status := TicketStatusProcessing },
        ?_, hrow, trivial, rfl, rfl, h⟩
      simp [Operation.ticket, hact, hparse]

/-! ## The state machine -/

/-- C5, as the code has it: an operation leaves the status of every stored
ticket as it was, or it addresses that ticket, the old status passes the
operation's own guard and the new status is the operation's target
(`SubmitTicket`: draft or rejected to submitted; `RecordDecision`: submitted
or processing to approved or rejected; `CompleteProcessing`: to completed;
`HandleExternalTask`: to processing).  An operation called on a ticket whose
status its guard refuses fails and leaves the table unchanged. -/
theorem status_changes_follow_guards (env : Env) (op : Operation) (w : World) (id : UUID)
    (t : Ticket) (hrow : findRow id w.tickets = some t) :
    (∃ t1, findRow id (op.run env w).2.tickets = some t1
      ∧ (t1.Status = t.Status
        ∨ (op.ticket env = some id ∧ op.eligible t.Status ∧ t1.Status = op.target)))
    ∧ (op.ticket env = some id → ¬ op.eligible t.Status →
        (op.run env w).1 ≠ none ∧ (op.run env w).2.tickets = w.tickets) := by
  constructor
  · rcases run_tickets env op w with h | ⟨i, t0, t1, htk, hrow0, hel, hid, hst, h⟩
    · exact ⟨t, by rw [h]; exact hrow, Or.inl rfl⟩
    · rw [h, findRow_saveRow]
      have hi : t0.ID = i := findRow_id hrow0
      by_cases hc : t1.ID = id
      · have hii : i = id := by rw [← hi, ← hid]; exact hc
        subst hii
        rw [hrow] at hrow0
        cases hrow0
        exact ⟨t1, by simp [hc], Or.inr ⟨htk, hel, hst⟩⟩
      · exact ⟨t, by simp [hc, hrow], Or.inl rfl⟩
  · intro htk hne
    cases op with
    | submit i =>
      simp only [Operation.ticket, Option.some.injEq] at htk
      subst htk
      exact SubmitTicket_guard hrow hne
    | decision i approved c =>
      simp only [Operation.ticket, Option.some.injEq] at htk
      subst htk
      exact RecordDecision_guard env i approved c w hrow hne
    | complete i => exact absurd trivial hne
    | handle task => exact absurd trivial hne

/-- Submitting the sample ticket while it is completed. -/
theorem status_changes_follow_guards_witness :
    findRow ⟨1⟩ (sampleWorld "completed").tickets = some (sampleTicket "completed")
    ∧ ((Operation.submit ⟨1⟩).run sampleEnv (sampleWorld "completed")).1 ≠ none
    ∧ ((Operation.submit ⟨1⟩).run sampleEnv (sampleWorld "completed")).2.tickets
        = (sampleWorld "completed").tickets :=
  ⟨by decide,
   (status_changes_follow_guards sampleEnv (.submit ⟨1⟩) (sampleWorld "completed") ⟨1⟩
      (sampleTicket "completed") (by decide)).2 rfl
      (by simp [Operation.eligible, sampleTicket, TicketStatusDraft, TicketStatusRejected])⟩

/-- C5 fails as stated: `RecordDecision` moves a processing ticket to
approved, `CompleteProcessing` moves a draft to completed and
`HandleExternalTask` moves a completed ticket to processing; each call
succeeds and none of the three pairs is an edge of the specification. -/
theorem status_edges_counterexample :
    ((RecordDecision sampleEnv ⟨1⟩ true "" (sampleWorld "processing")).1 = none
      ∧ (findRow ⟨1⟩ (RecordDecision sampleEnv ⟨1⟩ true "" (sampleWorld "processing")).2.tickets).map
          (fun t => t.Status) = some "approved"
      ∧ specEdge "processing" "approved" = false)
    ∧ ((CompleteProcessing sampleEnv ⟨1⟩ (sampleWorld "draft")).1 = none
      ∧ (findRow ⟨1⟩ (CompleteProcessing sampleEnv ⟨1⟩ (sampleWorld "draft")).2.tickets).map
          (fun t => t.Status) = some "completed"
      ∧ specEdge "draft" "completed" = false)
    ∧ ((HandleExternalTask sampleEnv sampleTask (sampleWorld "completed")).1 = none
      ∧ (findRow ⟨1⟩ (HandleExternalTask sampleEnv sampleTask (sampleWorld "completed")).2.tickets).map
          (fun t => t.Status) = some "processing"
      ∧ specEdge "completed" "processing" = false) := by
  decide

/-! ## RecordDecision -/

/-- C6: for a stored ticket, when the store can be read and written,
`RecordDecision` succeeds exactly when the status is submitted or processing.
Whenever it succeeds the stored ticket is the old one with status approved
(`approved = true`) or rejected (`approved = false`), every other field and
every other row as before.  Whenever it fails the table is unchanged and no
event has been handed to the publisher. -/
theorem record_decision_contract (env : Env) (w : World) (id : UUID) (approved : Bool)
    (c : String) (t : Ticket) (hrow : findRow id w.tickets = some t) :
    (env.dbFindErr w id = none →
      (Update env { t with Status :=
          if approved then TicketStatusApproved else TicketStatusRejected }
        (FindByID env id w).2).1 = none →
      ((RecordDecision env id approved c w).1 = none
        ↔ (t.Status = TicketStatusSubmitted ∨ t.Status = TicketStatusProcessing)))
    ∧ ((RecordDecision env id approved c w).1 = none →
        findRow id (RecordDecision env id approved c w).2.tickets
          = some { t with Status :=
              if approved then TicketStatusApproved else TicketStatusRejected }
        ∧ ∀ other, other ≠ id →
            findRow other (RecordDecision env id approved c w).2.tickets
              = findRow other w.tickets)
    ∧ ((RecordDecision env id approved c w).1 ≠ none →
        (RecordDecision env id approved c w).2.tickets = w.tickets
        ∧ published (RecordDecision env id approved c w).2.trace = published w.trace) := by
  have hid : t.ID = id := findRow_id hrow
  refine ⟨?_, ?_, ?_⟩
  · intro hfind hsave
    constructor
    · intro hok
      rcases RecordDecision_tickets env id approved c w with h | ⟨t2, hrow2, hs2, _⟩
      · exact absurd hok h.1
      · rw [hrow] at hrow2
        cases hrow2
        exact hs2
    · intro hs
      have hg : ¬ (t.Status ≠ TicketStatusSubmitted ∧ t.Status ≠ TicketStatusProcessing) := by
        rcases hs with h | h <;> simp [h]
      have ht1 : (if approved then { t with Status := TicketStatusApproved }
          else { t with Status := TicketStatusRejected })
          = { t with Status := if approved then TicketStatusApproved
              else TicketStatusRejected } := by
        cases approved <;> rfl
      rw [FindByID_found hfind hrow] at hsave
      unfold RecordDecision
      simp only [FindByID_found hfind hrow, hg, if_false, ht1]
      cases hU : Update env { t with Status :=
          if approved then TicketStatusApproved else TicketStatusRejected }
          (w.record (.dbFind id)) with
      | mk e w2 =>
        rw [hU] at hsave
        simp only at hsave
        subst hsave
        simp only []
        split <;> rfl
  · intro hok
    rcases RecordDecision_tickets env id approved c w with h | ⟨t2, hrow2, _, _, h⟩
    · exact absurd hok h.1
    · rw [hrow] at hrow2
      cases hrow2
      rw [h]
      refine ⟨by simp [findRow_saveRow, hid], ?_⟩
      intro other ho
      have : ¬ id = other := fun h => ho h.symm
      simp [findRow_saveRow, hid, this]
  · intro hfail
    rcases RecordDecision_tickets env id approved c w with h | ⟨_, _, _, hok, _⟩
    · exact ⟨h.2.1, h.2.2⟩
    · exact absurd hok hfail

/-- Scenario F: rejecting the sample ticket while it is submitted. -/
theorem record_decision_contract_witness :
    findRow ⟨1⟩ (sampleWorld "submitted").tickets = some (sampleTicket "submitted")
    ∧ (RecordDecision sampleEnv ⟨1⟩ false "no" (sampleWorld "submitted")).1 = none
    ∧ findRow ⟨1⟩ (RecordDecision sampleEnv ⟨1⟩ false "no" (sampleWorld "submitted")).2.tickets
        = some (sampleTicket "rejected") :=
  ⟨by decide,
   ((record_decision_contract sampleEnv (sampleWorld "submitted") ⟨1⟩ false "no"
      (sampleTicket "submitted") (by decide)).1 rfl (by decide)).2 (Or.inl rfl),
   ((record_decision_contract sampleEnv (sampleWorld "submitted") ⟨1⟩ false "no"
      (sampleTicket "submitted") (by decide)).2.1 (by decide)).1⟩

/-! ## HandleExternalTask -/

theorem publishPayload_ok {env : Env}
    (hpub : ∀ pub, env.mq = some pub → ∀ w1 k pl, pub w1 k pl = none)
    (event : String) (pl : Payload) (w : World) :
    (publishPayload env event pl w).1 = none := by
  unfold publishPayload
  cases hm : env.mq with
  | none => rfl
  | some pub => exact hpub pub hm w event pl

/-- With a store that works, handling a task of the recognised activity saves
the addressed ticket as processing; the call returns what the publisher
returns. -/
theorem HandleExternalTask_ok {env : Env} {task : ExternalTask} {id : UUID} {t : Ticket}
    {w : World}
    (hact : task.ActivityID = "ServiceTask_ProcessTicket")
    (hparse : env.uuidParse task.BusinessKey = .ok id)
    (hrow : findRow id w.tickets = some t)
    (hfind : ∀ w1, env.dbFindErr w1 id = none)
    (hsave : ∀ w1 t1, env.dbSaveErr w1 t1 = none) :
    ((∀ pub, env.mq = some pub → ∀ w1 k pl, pub w1 k pl = none) →
      (HandleExternalTask env task w).1 = none)
    ∧ (HandleExternalTask env task w).2.tickets
        = saveRow { t with Status := TicketStatusProcessing } w.tickets := by
  have hF : FindByID env id
      (w.record (.log ("processing external task for ticket " ++ env.uuidString id)))
      = (.ok t, (w.record (.log ("processing external task for ticket "
          ++ env.uuidString id))).record (.dbFind id)) :=
    FindByID_found (hfind _) (by simpa using hrow)
  unfold HandleExternalTask transitionToProcessing
  simp only [hact, if_true, hparse, hF]
  unfold Update
  simp only [hsave]
  exact ⟨fun hpub => publishPayload_ok hpub _ _ _, by rw [publishPayload_tickets]; simp⟩

/-- Handling a task is idempotent on the table.  For a task of the
recognised activity whose business key parses to the identifier of a stored
ticket, with a store that works: if the ticket is already processing the call
leaves the table, and so the stored ticket, unchanged; from any status a
second call leaves the table as the first call left it; and when the
publisher is absent or does not fail, both calls return no error. -/
theorem handle_task_idempotent (env : Env) (task : ExternalTask) (id : UUID) (t : Ticket)
    (w : World)
    (hact : task.ActivityID = "ServiceTask_ProcessTicket")
    (hparse : env.uuidParse task.BusinessKey = .ok id)
    (hrow : findRow id w.tickets = some t)
    (hfind : ∀ w1, env.dbFindErr w1 id = none)
    (hsave : ∀ w1 t1, env.dbSaveErr w1 t1 = none) :
    (t.Status = TicketStatusProcessing →
      (HandleExternalTask env task w).2.tickets = w.tickets
      ∧ findRow id (HandleExternalTask env task w).2.tickets = some t)
    ∧ (HandleExternalTask env task (HandleExternalTask env task w).2).2.tickets
        = (HandleExternalTask env task w).2.tickets
    ∧ ((∀ pub, env.mq = some pub → ∀ w1 k pl, pub w1 k pl = none) →
        (HandleExternalTask env task w).1 = none
        ∧ (HandleExternalTask env task (HandleExternalTask env task w).2).1 = none) := by
  have hid : t.ID = id := findRow_id hrow
  obtain ⟨h1, h2⟩ := HandleExternalTask_ok hact hparse hrow hfind hsave
  have hrow1 : findRow id (HandleExternalTask env task w).2.tickets
      = some { t with Status := TicketStatusProcessing } := by
    rw [h2, findRow_saveRow]; simp [hid]
  obtain ⟨h3, h4⟩ := HandleExternalTask_ok hact hparse hrow1 hfind hsave
  refine ⟨?_, ?_, fun hpub => ⟨h1 hpub, h3 hpub⟩⟩
  · intro hs
    have ht : { t with Status := TicketStatusProcessing } = t := by
      cases t; simp_all
    rw [ht] at h2
    have hsame : saveRow t w.tickets = w.tickets := saveRow_same (by rw [hid]; exact hrow)
    rw [hsame] at h2
    exact ⟨h2, by rw [h2]; exact hrow⟩
  · rw [h4]
    exact saveRow_same (by simpa [hid] using hrow1)

/-- The sample task handled while the sample ticket is processing. -/
theorem handle_task_idempotent_witness :
    (sampleTask.ActivityID = "ServiceTask_ProcessTicket"
      ∧ sampleEnv.uuidParse sampleTask.BusinessKey = .ok ⟨1⟩
      ∧ findRow ⟨1⟩ (sampleWorld "processing").tickets = some (sampleTicket "processing"))
    ∧ (HandleExternalTask sampleEnv sampleTask (sampleWorld "processing")).1 = none
    ∧ (HandleExternalTask sampleEnv sampleTask (sampleWorld "processing")).2.tickets
        = (sampleWorld "processing").tickets :=
  ⟨by decide,
   ((handle_task_idempotent sampleEnv sampleTask ⟨1⟩ (sampleTicket "processing")
      (sampleWorld "processing") rfl (by decide) (by decide) (fun _ => rfl)
      (fun _ _ => rfl)).2.2 (fun pub h w1 k pl => by cases h; rfl)).1,
   ((handle_task_idempotent sampleEnv sampleTask ⟨1⟩ (sampleTicket "processing")
      (sampleWorld "processing") rfl (by decide) (by decide) (fun _ => rfl)
      (fun _ _ => rfl)).1 rfl).1⟩

/-- C7: the sample task handled while the sample ticket is already
processing, with a store that works.  When the publisher's transport is up
the call returns no error.  When it is down the table is left unchanged and a
second call leaves it unchanged again, yet both calls return the publisher's
error: the call fails on a ticket already processing. -/
theorem handle_task_fails_when_bus_is_down :
    (sampleTask.ActivityID = "ServiceTask_ProcessTicket"
      ∧ busDownEnv.uuidParse sampleTask.BusinessKey = .ok ⟨1⟩
      ∧ findRow ⟨1⟩ (sampleWorld "processing").tickets = some (sampleTicket "processing")
      ∧ (sampleTicket "processing").Status = TicketStatusProcessing)
    ∧ ((∀ w1, busDownEnv.dbFindErr w1 ⟨1⟩ = none) ∧ (∀ w1 t1, busDownEnv.dbSaveErr w1 t1 = none))
    ∧ (HandleExternalTask sampleEnv sampleTask (sampleWorld "processing")).1 = none
    ∧ (HandleExternalTask busDownEnv sampleTask (sampleWorld "processing")).1
        = some "channel closed"
    ∧ (HandleExternalTask busDownEnv sampleTask (sampleWorld "processing")).2.tickets
        = (sampleWorld "processing").tickets
    ∧ (HandleExternalTask busDownEnv sampleTask
        (HandleExternalTask busDownEnv sampleTask (sampleWorld "processing")).2).1
        = some "channel closed"
    ∧ (HandleExternalTask busDownEnv sampleTask
        (HandleExternalTask busDownEnv sampleTask (sampleWorld "processing")).2).2.tickets
        = (sampleWorld "processing").tickets :=
  ⟨by decide, ⟨fun _ => rfl, fun _ _ => rfl⟩, by decide, by decide, by decide, by decide,
   by decide⟩

/-! ## The poller -/

/-- What an operation of the coordinator adds to the trace holds no request
to the engine and no dispatch record. -/
theorem HandleExternalTask_trace (env : Env) (task : ExternalTask) (w : World) :
    ∃ d, (HandleExternalTask env task w).2.trace = w.trace ++ d
      ∧ engineCalls d = [] ∧ dispatched d = [] := by
  unfold HandleExternalTask
  split
  · split
    · exact ⟨[], by simp, rfl, rfl⟩
    · rename_i id _
      simp only []
      unfold transitionToProcessing
      cases hF : FindByID env id
        (w.record (.log ("processing external task for ticket " ++ env.uuidString id))) with
      | mk r w1 =>
        have hw1 := FindByID_world env id
          (w.record (.log ("processing external task for ticket " ++ env.uuidString id)))
        rw [hF] at hw1
        simp only at hw1
        subst hw1
        cases r with
        | error e =>
          exact ⟨[.log ("processing external task for ticket " ++ env.uuidString id),
            .dbFind id], by simp, rfl, rfl⟩
        | ok t =>
          simp only []
          cases hU : Update env { t with Status := TicketStatusProcessing }
            ((w.record (.log ("processing external task for ticket "
              ++ env.uuidString id))).record (.dbFind id)) with
          | mk e w2 =>
            have hT := Update_trace env { t with Status := TicketStatusProcessing }
              ((w.record (.log ("processing external task for ticket "
                ++ env.uuidString id))).record (.dbFind id))
            rw [hU] at hT
            simp only at hT
            cases e with
            | some e =>
              exact ⟨[.log ("processing external task for ticket " ++ env.uuidString id),
                .dbFind id, .dbSave { t with Status := TicketStatusProcessing }],
                by simp [hT], rfl, rfl⟩
            | none =>
              simp only []
              unfold publishPayload
              cases env.mq with
              | none =>
                exact ⟨[.log ("processing external task for ticket " ++ env.uuidString id),
                  .dbFind id, .dbSave { t with Status := TicketStatusProcessing }],
                  by simp [hT], rfl, rfl⟩
              | some pub =>
                exact ⟨[.log ("processing external task for ticket " ++ env.uuidString id),
                  .dbFind id, .dbSave { t with Status := TicketStatusProcessing },
                  .publish "ticket.processing"
                    [("ticketId", .str (env.uuidString id)),
                     ("activity", .str task.ActivityID)]],
                  by simp [hT], rfl, rfl⟩
  · exact ⟨[], by simp, rfl, rfl⟩

theorem CompleteExternalTask_world (env : Env) (workerID taskID : String)
    (vars : Option Payload) (w : World) :
    (CompleteExternalTask env workerID taskID vars w).2
      = w.record (.http (Request.complete taskID workerID (wrapVariables vars))) := by
  unfold CompleteExternalTask
  dsimp only
  split
  · rfl
  · split <;> rfl

theorem FetchAndLockExternalTasks_world (env : Env) (workerID topic : String) (lock : Int)
    (w : World) :
    (FetchAndLockExternalTasks env workerID topic lock w).2
      = w.record (.http (Request.fetchAndLock workerID 5 true topic (Milliseconds lock))) := by
  unfold FetchAndLockExternalTasks
  dsimp only
  split
  · rfl
  · split
    · rfl
    · split <;> rfl

theorem batch_step (wid : String) (task : ExternalTask) (r : Option String)
    (d0 mid d : List Effect) (rest : List ExternalTask)
    (he0 : engineCalls d0 = []) (hp0 : dispatched d0 = [])
    (hm1 : dispatched mid = [(task, r)])
    (hm2 : completions mid = if r.isNone then [(task.ID, wid)] else [])
    (hm3 : (engineCalls mid).length = (completions mid).length)
    (h1 : (dispatched d).map Prod.fst = rest)
    (h2 : completions d = ((dispatched d).filter (fun x => x.2.isNone)).map
        (fun x => (x.1.ID, wid)))
    (h3 : (engineCalls d).length = (completions d).length) :
    (dispatched (d0 ++ mid ++ d)).map Prod.fst = task :: rest
    ∧ completions (d0 ++ mid ++ d) = ((dispatched (d0 ++ mid ++ d)).filter
        (fun x => x.2.isNone)).map (fun x => (x.1.ID, wid))
    ∧ (engineCalls (d0 ++ mid ++ d)).length = (completions (d0 ++ mid ++ d)).length := by
  have hc0 : completions d0 = [] := by simp [completions, he0]
  refine ⟨?_, ?_, ?_⟩
  · simp only [dispatched_append, hp0, hm1, List.map_append, h1]
    rfl
  · simp only [dispatched_append, completions_append, hp0, hc0, hm1, hm2, List.filter_append,
      List.map_append, ← h2, List.nil_append, List.filter_nil, List.map_nil]
    cases r <;> simp
  · simp only [engineCalls_append, completions_append, List.length_append, he0, hc0, hm3, h3,
      List.length_nil]

theorem batch_step_all (P : ExternalTask × Option String → Prop) (task : ExternalTask)
    (r : Option String) (d0 mid d : List Effect)
    (hp0 : dispatched d0 = []) (hm1 : dispatched mid = [(task, r)])
    (hP : P (task, r)) (hd : ∀ x ∈ dispatched d, P x) :
    ∀ x ∈ dispatched (d0 ++ mid ++ d), P x := by
  intro x hx
  simp only [dispatched_append, hp0, hm1, List.nil_append, List.singleton_append,
    List.mem_cons] at hx
  rcases hx with rfl | hx
  · exact hP
  · exact hd x hx

/-- The loop over a batch: every task is dispatched, in order, and the
requests sent to the engine are the acknowledgements of the tasks handled
without error. -/
theorem pollTasks_trace (env : Env) (wk : ExternalWorker) (tasks : List ExternalTask) :
    ∀ w : World, ∃ d, (pollTasks env wk tasks w).trace = w.trace ++ d
      ∧ (dispatched d).map Prod.fst = tasks
      ∧ completions d = ((dispatched d).filter (fun x => x.2.isNone)).map
          (fun x => (x.1.ID, wk.id))
      ∧ (engineCalls d).length = (completions d).length
      ∧ ∀ x ∈ dispatched d, ∃ w0, x.2 = (HandleExternalTask env x.1 w0).1 := by
  induction tasks with
  | nil =>
    intro w
    exact ⟨[], by simp [pollTasks], rfl, rfl, rfl, by simp [dispatched]⟩
  | cons task rest ih =>
    intro w
    obtain ⟨d0, hd0, he0, hp0⟩ := HandleExternalTask_trace env task w
    unfold pollTasks
    cases hH : HandleExternalTask env task w with
    | mk r w1 =>
      rw [hH] at hd0
      simp only at hd0
      cases r with
      | some err =>
        simp only []
        obtain ⟨d, hd, h1, h2, h3, h4⟩ := ih ((w1.record (.dispatch task (some err))).record
          (.log ("handle external task " ++ task.ID ++ " failed: " ++ err)))
        refine ⟨_, ?_,
          (batch_step wk.id task (some err) d0
            [.dispatch task (some err),
          .log ("handle external task " ++ task.ID ++ " failed: " ++ err)] d rest he0 hp0 rfl rfl rfl h1 h2 h3).1,
          (batch_step wk.id task (some err) d0
            [.dispatch task (some err),
          .log ("handle external task " ++ task.ID ++ " failed: " ++ err)] d rest he0 hp0 rfl rfl rfl h1 h2 h3).2.1,
          (batch_step wk.id task (some err) d0
            [.dispatch task (some err),
          .log ("handle external task " ++ task.ID ++ " failed: " ++ err)] d rest he0 hp0 rfl rfl rfl h1 h2 h3).2.2,
          batch_step_all _ task (some err) d0
            [.dispatch task (some err),
          .log ("handle external task " ++ task.ID ++ " failed: " ++ err)] d hp0 rfl ⟨w, by rw [hH]⟩ h4⟩
        rw [hd]; simp [hd0]
      | none =>
        simp only []
        have hC := CompleteExternalTask_world env wk.id task.ID
          (some [("handledAt", .str (env.now (w1.record (.dispatch task none))))])
          (w1.record (.dispatch task none))
        cases hCE : CompleteExternalTask env wk.id task.ID
          (some [("handledAt", .str (env.now (w1.record (.dispatch task none))))])
          (w1.record (.dispatch task none)) with
        | mk e w3 =>
          rw [hCE] at hC
          simp only at hC
          subst hC
          cases e with
          | some err =>
            simp only []
            obtain ⟨d, hd, h1, h2, h3, h4⟩ := ih
              (((w1.record (.dispatch task none)).record (.http (Request.complete task.ID wk.id
                (wrapVariables (some [("handledAt",
                  Value.str (env.now (w1.record (.dispatch task none))))]))))).record
                (.log ("complete external task " ++ task.ID ++ " failed: " ++ err)))
            refine ⟨_, ?_,
          (batch_step wk.id task none d0
            [.dispatch task none, .http (Request.complete task.ID wk.id
                (wrapVariables (some [("handledAt",
                  Value.str (env.now (w1.record (.dispatch task none))))]))),
              .log ("complete external task " ++ task.ID ++ " failed: " ++ err)] d rest he0 hp0 rfl rfl rfl h1 h2 h3).1,
          (batch_step wk.id task none d0
            [.dispatch task none, .http (Request.complete task.ID wk.id
                (wrapVariables (some [("handledAt",
                  Value.str (env.now (w1.record (.dispatch task none))))]))),
              .log ("complete external task " ++ task.ID ++ " failed: " ++ err)] d rest he0 hp0 rfl rfl rfl h1 h2 h3).2.1,
          (batch_step wk.id task none d0
            [.dispatch task none, .http (Request.complete task.ID wk.id
                (wrapVariables (some [("handledAt",
                  Value.str (env.now (w1.record (.dispatch task none))))]))),
              .log ("complete external task " ++ task.ID ++ " failed: " ++ err)] d rest he0 hp0 rfl rfl rfl h1 h2 h3).2.2,
          batch_step_all _ task none d0
            [.dispatch task none, .http (Request.complete task.ID wk.id
                (wrapVariables (some [("handledAt",
                  Value.str (env.now (w1.record (.dispatch task none))))]))),
              .log ("complete external task " ++ task.ID ++ " failed: " ++ err)] d hp0 rfl ⟨w, by rw [hH]⟩ h4⟩
            rw [hd]; simp [hd0]
          | none =>
            simp only []
            obtain ⟨d, hd, h1, h2, h3, h4⟩ := ih
              ((w1.record (.dispatch task none)).record (.http (Request.complete task.ID wk.id
                (wrapVariables (some [("handledAt",
                  Value.str (env.now (w1.record (.dispatch task none))))])))))
            refine ⟨_, ?_,
          (batch_step wk.id task none d0
            [.dispatch task none, .http (Request.complete task.ID wk.id
                (wrapVariables (some [("handledAt",
                  Value.str (env.now (w1.record (.dispatch task none))))])))] d rest he0 hp0 rfl rfl rfl h1 h2 h3).1,
          (batch_step wk.id task none d0
            [.dispatch task none, .http (Request.complete task.ID wk.id
                (wrapVariables (some [("handledAt",
                  Value.str (env.now (w1.record (.dispatch task none))))])))] d rest he0 hp0 rfl rfl rfl h1 h2 h3).2.1,
          (batch_step wk.id task none d0
            [.dispatch task none, .http (Request.complete task.ID wk.id
                (wrapVariables (some [("handledAt",
                  Value.str (env.now (w1.record (.dispatch task none))))])))] d rest he0 hp0 rfl rfl rfl h1 h2 h3).2.2,
          batch_step_all _ task none d0
            [.dispatch task none, .http (Request.complete task.ID wk.id
                (wrapVariables (some [("handledAt",
                  Value.str (env.now (w1.record (.dispatch task none))))])))] d hp0 rfl ⟨w, by rw [hH]⟩ h4⟩
            rw [hd]; simp [hd0]

/-- C8: when fetch-and-lock answers with a batch, the rest of the poll
dispatches every task of the batch to `HandleExternalTask`, in list order,
each dispatch record carrying the error that call returned; the requests
sent to the engine after the fetch are exactly the complete-task calls for
the tasks handled without error, in order, each with the worker's identity
and that task's identifier; a task of an unrecognised activity is handled with
an error and so is not acknowledged. -/
theorem poll_dispatches_and_acknowledges (env : Env) (wk : ExternalWorker) (w : World)
    (tasks : List ExternalTask)
    (hfetch : (FetchAndLockExternalTasks env wk.id wk.topic wk.lock w).1 = .ok tasks) :
    ∃ d, (poll env wk w).trace
        = (FetchAndLockExternalTasks env wk.id wk.topic wk.lock w).2.trace ++ d
      ∧ (dispatched d).map Prod.fst = tasks
      ∧ completions d = ((dispatched d).filter (fun x => x.2.isNone)).map
          (fun x => (x.1.ID, wk.id))
      ∧ (engineCalls d).length = (completions d).length
      ∧ (∀ x ∈ dispatched d, ∃ w0, x.2 = (HandleExternalTask env x.1 w0).1)
      ∧ ∀ x ∈ dispatched d, x.1.ActivityID ≠ "ServiceTask_ProcessTicket" → x.2.isNone = false := by
  unfold poll
  cases hF : FetchAndLockExternalTasks env wk.id wk.topic wk.lock w with
  | mk r w1 =>
    rw [hF] at hfetch
    simp only at hfetch
    subst hfetch
    simp only []
    obtain ⟨d, hd, h1, h2, h3, h4⟩ := pollTasks_trace env wk tasks w1
    refine ⟨d, hd, h1, h2, h3, h4, ?_⟩
    intro x hx hact
    obtain ⟨w0, hw0⟩ := h4 x hx
    rw [hw0]
    unfold HandleExternalTask
    simp [hact]

/-- Scenarios D and E: a batch made of the sample task and of a task of an
unknown activity, polled while the sample ticket is submitted. -/
theorem poll_dispatches_and_acknowledges_witness :
    (FetchAndLockExternalTasks batchEnv sampleWorker.id sampleWorker.topic sampleWorker.lock
        (sampleWorld "submitted")).1 = .ok [strayTask, sampleTask]
    ∧ (∃ d, (poll batchEnv sampleWorker (sampleWorld "submitted")).trace
        = (FetchAndLockExternalTasks batchEnv sampleWorker.id sampleWorker.topic
            sampleWorker.lock (sampleWorld "submitted")).2.trace ++ d
      ∧ (dispatched d).map Prod.fst = [strayTask, sampleTask])
    ∧ completions (poll batchEnv sampleWorker (sampleWorld "submitted")).trace
        = [("task-1", "worker-1")]
    ∧ (findRow ⟨1⟩ (poll batchEnv sampleWorker (sampleWorld "submitted")).tickets).map
        (fun t => t.Status) = some "processing" :=
  ⟨by decide,
   (poll_dispatches_and_acknowledges batchEnv sampleWorker (sampleWorld "submitted")
      [strayTask, sampleTask] (by decide)).imp (fun _ h => ⟨h.1, h.2.1⟩),
   by decide, by decide⟩

/-! ## Tasks refused before the store is touched -/

/-- C9: a task of an activity other than `ServiceTask_ProcessTicket` is
refused with the message `unhandled activity ACTIVITY`, and a task of the
recognised activity whose business key does not parse is refused with
`invalid business key: ...`; in both cases the world is left exactly as it
was: the store is neither read nor written and nothing is published. -/
theorem handle_task_refuses_before_store (env : Env) (task : ExternalTask) (w : World)
    (h : task.ActivityID ≠ "ServiceTask_ProcessTicket"
      ∨ ∃ e, env.uuidParse task.BusinessKey = .error e) :
    (HandleExternalTask env task w).2 = w
    ∧ storeReads (HandleExternalTask env task w).2.trace = storeReads w.trace
    ∧ storeWrites (HandleExternalTask env task w).2.trace = storeWrites w.trace
    ∧ published (HandleExternalTask env task w).2.trace = published w.trace
    ∧ (task.ActivityID ≠ "ServiceTask_ProcessTicket" →
        (HandleExternalTask env task w).1 = some ("unhandled activity " ++ task.ActivityID))
    ∧ (task.ActivityID = "ServiceTask_ProcessTicket" →
        ∀ e, env.uuidParse task.BusinessKey = .error e →
          (HandleExternalTask env task w).1 = some ("invalid business key: " ++ e)) := by
  have hw : (HandleExternalTask env task w).2 = w := by
    unfold HandleExternalTask
    rcases h with h | ⟨e, he⟩
    · simp [h]
    · split
      · simp [he]
      · rfl
  refine ⟨hw, by rw [hw], by rw [hw], by rw [hw], ?_, ?_⟩
  · intro hact
    unfold HandleExternalTask
    simp [hact]
  · intro hact e he
    unfold HandleExternalTask
    simp [hact, he]

/-- Scenario E: the stray task, and the sample task with a business key that
is no identifier. -/
theorem handle_task_refuses_before_store_witness :
    (strayTask.ActivityID ≠ "ServiceTask_ProcessTicket"
      ∧ (HandleExternalTask sampleEnv strayTask (sampleWorld "submitted")).1
          = some "unhandled activity UserTask_Review"
      ∧ (HandleExternalTask sampleEnv strayTask (sampleWorld "submitted")).2
          = sampleWorld "submitted")
    ∧ (sampleEnv.uuidParse "not-a-uuid" = .error "invalid UUID format"
      ∧ (HandleExternalTask sampleEnv { sampleTask with BusinessKey := "not-a-uuid" }
          (sampleWorld "submitted")).1 = some "invalid business key: invalid UUID format"
      ∧ (HandleExternalTask sampleEnv { sampleTask with BusinessKey := "not-a-uuid" }
          (sampleWorld "submitted")).2 = sampleWorld "submitted") :=
  ⟨⟨by decide,
    (handle_task_refuses_before_store sampleEnv strayTask (sampleWorld "submitted")
      (Or.inl (by decide))).2.2.2.2.1 (by decide),
    (handle_task_refuses_before_store sampleEnv strayTask (sampleWorld "submitted")
      (Or.inl (by decide))).1⟩,
   ⟨by decide,
    (handle_task_refuses_before_store sampleEnv { sampleTask with BusinessKey := "not-a-uuid" }
      (sampleWorld "submitted") (Or.inr ⟨"invalid UUID format", by decide⟩)).2.2.2.2.2 rfl
      "invalid UUID format" (by decide),
    (handle_task_refuses_before_store sampleEnv { sampleTask with BusinessKey := "not-a-uuid" }
      (sampleWorld "submitted") (Or.inr ⟨"invalid UUID format", by decide⟩)).1⟩⟩

/-! ## Concurrent submissions -/

/-- A call run alone through its six steps is `SubmitTicket`. -/
theorem runAlone_eq_SubmitTicket (env : Env) (id : UUID) (w : World) :
    runAlone env id 6 .atBegin w = (.done (SubmitTicket env id w).1, (SubmitTicket env id w).2) := by
  cases hb : env.dbBeginErr w with
  | some e => simp [runAlone, submitStep, SubmitTicket, Transaction, hb]
  | none =>
    cases hF : FindByID env id w with
    | mk r w1 =>
      cases r with
      | error e => simp [runAlone, submitStep, SubmitTicket, Transaction, submitBody, hb, hF]
      | ok t =>
        by_cases hg : t.Status ≠ TicketStatusDraft ∧ t.Status ≠ TicketStatusRejected
        · simp [runAlone, submitStep, SubmitTicket, Transaction, submitBody, hb, hF, hg]
        · cases hS : StartProcessInstance env env.processKey (env.uuidString t.ID)
              (some [("requester", .str t.Requester), ("title", .str t.Title)]) w1 with
          | mk r2 w2 =>
            cases r2 with
            | error e =>
              simp [runAlone, submitStep, SubmitTicket, Transaction, submitBody, hb, hF, hg, hS]
            | ok pid =>
              cases hU : Update env
                  { t with ProcessInstanceID := pid, Status := TicketStatusSubmitted } w2 with
              | mk e3 w3 =>
                cases e3 with
                | some e =>
                  simp [runAlone, submitStep, SubmitTicket, Transaction, submitBody, hb, hF, hg,
                    hS, hU]
                | none =>
                  cases hP : publishEvent env "ticket.submitted"
                      { t with ProcessInstanceID := pid, Status := TicketStatusSubmitted }
                      w3 with
                  | mk e4 w4 =>
                    cases e4 with
                    | some e =>
                      simp [runAlone, submitStep, SubmitTicket, Transaction, submitBody, hb, hF,
                        hg, hS, hU, hP]
                    | none =>
                      simp [runAlone, submitStep, SubmitTicket, Transaction, submitBody, hb, hF,
                        hg, hS, hU, hP]

theorem runRace_first (env : Env) (idA idB : UUID) (n : Nat) (rest : List Bool) :
    ∀ r : Race, runRace env idA idB (List.replicate n false ++ rest) r
      = runRace env idA idB rest
          { r with first := (runAlone env idA n r.first r.world).1,
                   world := (runAlone env idA n r.first r.world).2 } := by
  induction n with
  | zero => intro r; rfl
  | succ n ih =>
    intro r
    simp only [List.replicate_succ, List.cons_append, runRace, runAlone]
    exact ih _

theorem runRace_second (env : Env) (idA idB : UUID) (n : Nat) (rest : List Bool) :
    ∀ r : Race, runRace env idA idB (List.replicate n true ++ rest) r
      = runRace env idA idB rest
          { r with second := (runAlone env idB n r.second r.world).1,
                   world := (runAlone env idB n r.second r.world).2 } := by
  induction n with
  | zero => intro r; rfl
  | succ n ih =>
    intro r
    simp only [List.replicate_succ, List.cons_append, runRace, runAlone]
    exact ih _

/-- Under the schedule that runs one call after the other, the race is the
two calls of `SubmitTicket` in sequence. -/
theorem runRace_oneAfterTheOther (env : Env) (idA idB : UUID) (w : World) :
    runRace env idA idB oneAfterTheOther (Race.init w)
      = { first := .done (SubmitTicket env idA w).1,
          second := .done (SubmitTicket env idB (SubmitTicket env idA w).2).1,
          world := (SubmitTicket env idB (SubmitTicket env idA w).2).2 } := by
  unfold oneAfterTheOther
  rw [runRace_first]
  have h := runRace_second env idA idB 6 []
  simp only [List.append_nil] at h
  rw [h]
  simp only [Race.init, runAlone_eq_SubmitTicket, runRace]

/-- C10: two calls of `SubmitTicket` for the sample draft.  Run one after the
other, the first succeeds, the second is refused from status submitted and one
process instance is started.  Run with their steps in turn, both read the
draft before either saves: both return no error and two process instances are
started. -/
theorem concurrent_submissions_both_succeed :
    ((runRace sampleEnv ⟨1⟩ ⟨1⟩ oneAfterTheOther (Race.init (sampleWorld "draft"))).first
        = .done none
      ∧ (runRace sampleEnv ⟨1⟩ ⟨1⟩ oneAfterTheOther (Race.init (sampleWorld "draft"))).second
        = .done (some
          "ticket 00000000-0000-0000-0000-000000000001 cannot be submitted from status submitted")
      ∧ (startCalls (runRace sampleEnv ⟨1⟩ ⟨1⟩ oneAfterTheOther
          (Race.init (sampleWorld "draft"))).world.trace).length = 1)
    ∧ ((runRace sampleEnv ⟨1⟩ ⟨1⟩ inTurn (Race.init (sampleWorld "draft"))).first = .done none
      ∧ (runRace sampleEnv ⟨1⟩ ⟨1⟩ inTurn (Race.init (sampleWorld "draft"))).second = .done none
      ∧ (startCalls (runRace sampleEnv ⟨1⟩ ⟨1⟩ inTurn
          (Race.init (sampleWorld "draft"))).world.trace).length = 2
      ∧ (findRow ⟨1⟩ (runRace sampleEnv ⟨1⟩ ⟨1⟩ inTurn
          (Race.init (sampleWorld "draft"))).world.tickets).map
            (fun t => (t.Status, t.ProcessInstanceID)) = some ("submitted", "proc-2")) := by
  decide

/-! ## The engine client -/

/-- C11, as the code has it: when the transport hands back a response, each
of the four operations of the client returns an error, made of its own
refusal text and the status line, if the status code is 300 or more, and
returns no error only if the status code is below 300.  A response with a
status code below 300, a code below 200 included, passes the status check:
`DeployProcess` and `CompleteExternalTask` return no error, and
`StartProcessInstance` and `FetchAndLockExternalTasks` return what decoding
the body gives, the decoded value or the decoding error.  A transport error
is returned as it is. -/
theorem client_refuses_status_300_and_above (env : Env) (call : ClientCall) (w : World) :
    (∀ resp, env.httpDo w call.request = .ok resp →
      (300 ≤ resp.StatusCode → call.err env w = some (call.refusal ++ resp.Status))
      ∧ (call.err env w = none → resp.StatusCode < 300)
      ∧ ((∃ n b, call = .deploy n b) ∨ (∃ i t v, call = .complete i t v) →
          resp.StatusCode < 300 → call.err env w = none)
      ∧ (resp.StatusCode < 300 → call.err env w = call.decodeErr env resp.Body)
      ∧ (resp.StatusCode < 300 → ∀ key bk vars, call = .start key bk vars →
          (StartProcessInstance env key bk vars w).1 = env.decodeID resp.Body)
      ∧ (resp.StatusCode < 300 → ∀ wid topic lock, call = .fetchAndLock wid topic lock →
          (FetchAndLockExternalTasks env wid topic lock w).1 = env.decodeTasks resp.Body))
    ∧ (∀ e, env.httpDo w call.request = .error e → call.err env w = some e) := by
  constructor
  · intro resp hdo
    have key : 300 ≤ resp.StatusCode → call.err env w = some (call.refusal ++ resp.Status) := by
      intro hc
      cases call <;>
        simp [ClientCall.err, ClientCall.refusal, ClientCall.request, DeployProcess,
          StartProcessInstance, FetchAndLockExternalTasks, CompleteExternalTask] at hdo ⊢ <;>
        simp [hdo, hc]
    refine ⟨key, ?_, ?_, ?_, ?_, ?_⟩
    · intro hok
      by_contra hc
      rw [key (not_lt.mp hc)] at hok
      exact absurd hok (by simp)
    · intro hk hc
      have hc2 : ¬ (300 ≤ resp.StatusCode) := not_le.mpr hc
      rcases hk with ⟨n, b, rfl⟩ | ⟨i, t, v, rfl⟩ <;>
        simp [ClientCall.err, ClientCall.request, DeployProcess, CompleteExternalTask] at hdo ⊢ <;>
        simp [hdo, hc2]
    · intro hc
      have hc2 : ¬ (300 ≤ resp.StatusCode) := not_le.mpr hc
      cases call with
      | deploy n b =>
        simp [ClientCall.err, ClientCall.decodeErr, ClientCall.request, DeployProcess] at hdo ⊢
        simp [hdo, hc2]
      | start key bk vars =>
        simp only [ClientCall.request] at hdo
        simp only [ClientCall.err, ClientCall.decodeErr, StartProcessInstance, hdo]
        cases hd : env.decodeID resp.Body <;> simp [hc2]
      | fetchAndLock wid topic lock =>
        simp only [ClientCall.request] at hdo
        simp only [ClientCall.err, ClientCall.decodeErr, FetchAndLockExternalTasks, hdo]
        cases hd : env.decodeTasks resp.Body <;> simp [hc2]
      | complete wid tid vars =>
        simp [ClientCall.err, ClientCall.decodeErr, ClientCall.request,
          CompleteExternalTask] at hdo ⊢
        simp [hdo, hc2]
    · intro hc key bk vars hcall
      have hc2 : ¬ (300 ≤ resp.StatusCode) := not_le.mpr hc
      subst hcall
      simp only [ClientCall.request] at hdo
      simp only [StartProcessInstance, hdo]
      cases hd : env.decodeID resp.Body <;> simp [hc2]
    · intro hc wid topic lock hcall
      have hc2 : ¬ (300 ≤ resp.StatusCode) := not_le.mpr hc
      subst hcall
      simp only [ClientCall.request] at hdo
      simp only [FetchAndLockExternalTasks, hdo]
      cases hd : env.decodeTasks resp.Body <;> simp [hc2]
  · intro e hdo
    cases call <;>
      simp [ClientCall.err, ClientCall.request, DeployProcess,
        StartProcessInstance, FetchAndLockExternalTasks, CompleteExternalTask] at hdo ⊢ <;>
      simp [hdo]

/-- The sample deployment refused with `404 Not Found`, and a process started
on the answer `200 OK`. -/
theorem client_refuses_status_300_and_above_witness :
    (notFoundEnv.httpDo emptyWorld (ClientCall.deploy "ticket-process" []).request
        = .ok { StatusCode := 404, Status := "404 Not Found", Body := "" }
      ∧ (DeployProcess notFoundEnv "ticket-process" [] emptyWorld).1
          = some "camunda deploy failed: 404 Not Found")
    ∧ (sampleEnv.httpDo emptyWorld (ClientCall.start "ticket-process" "key" none).request
        = .ok { StatusCode := 200, Status := "200 OK", Body := "proc-1" }
      ∧ (StartProcessInstance sampleEnv "ticket-process" "key" none emptyWorld).1
          = .ok "proc-1") :=
  ⟨⟨rfl,
    ((client_refuses_status_300_and_above notFoundEnv (.deploy "ticket-process" [])
      emptyWorld).1 { StatusCode := 404, Status := "404 Not Found", Body := "" } rfl).1
      (by decide)⟩,
   ⟨by decide,
    ((client_refuses_status_300_and_above sampleEnv (.start "ticket-process" "key" none)
      emptyWorld).1 { StatusCode := 200, Status := "200 OK", Body := "proc-1" }
      (by decide)).2.2.2.2.1 (by decide) "ticket-process" "key" none rfl⟩⟩

/-- C11 fails as stated: on a response with status code 101, outside
200..299, and no body, `DeployProcess` and `CompleteExternalTask` return no
error.  `StartProcessInstance` and `FetchAndLockExternalTasks` pass the status
check too: the error they return is the decoder's `EOF` on the missing body,
not the refusal of the status. -/
theorem client_accepts_status_101 :
    (switchingEnv.httpDo emptyWorld (Request.deploy "ticket-process" [])).map
        (fun r => r.StatusCode) = .ok 101
    ∧ ¬ ((200 : Int) ≤ 101 ∧ (101 : Int) ≤ 299)
    ∧ (DeployProcess switchingEnv "ticket-process" [] emptyWorld).1 = none
    ∧ (CompleteExternalTask switchingEnv "worker-1" "task-1" none emptyWorld).1 = none
    ∧ (StartProcessInstance switchingEnv "ticket-process" "key" none emptyWorld).1
        = .error "EOF"
    ∧ (FetchAndLockExternalTasks switchingEnv "worker-1" "ticket-processing" 60000000000
        emptyWorld).1 = .error "EOF" := by
  decide

theorem wrapVariables_keys {α : Type} (kvs : List (String × α)) :
    (wrapVariables (some kvs)).map Prod.fst = kvs.map Prod.fst := by
  simp [wrapVariables, Function.comp_def]

theorem wrapVariables_lookup {α : Type} (k : String) (kvs : List (String × α)) :
    lookupKey k (wrapVariables (some kvs)) = (lookupKey k kvs).map Wrapped.mk := by
  induction kvs with
  | nil => rfl
  | cons kv rest ih =>
    obtain ⟨k1, v⟩ := kv
    have ih2 : lookupKey k (rest.map (fun kv => (kv.1, Wrapped.mk kv.2)))
        = (lookupKey k rest).map Wrapped.mk := ih
    by_cases h : k1 = k
    · simp [wrapVariables, lookupKey, h]
    · simp [wrapVariables, lookupKey, h, ih2]

/-- C12: `wrapVariables` keeps the keys of the map and binds each key to the
one-entry object holding the value the key was bound to; the nil map and the
empty map both give the empty map.  The single request `StartProcessInstance`
sends, and the single request `CompleteExternalTask` sends, carry the
variables as `wrapVariables` returns them. -/
theorem variables_are_wrapped {α : Type} (vars : Option (List (String × α)))
    (env : Env) (w : World) (key businessKey workerID taskID : String)
    (sent : Option Payload) :
    ((wrapVariables vars).map Prod.fst = (vars.getD []).map Prod.fst
      ∧ (∀ k, lookupKey k (wrapVariables vars)
          = (lookupKey k (vars.getD [])).map (fun v => { value := v }))
      ∧ wrapVariables (none : Option (List (String × α))) = []
      ∧ wrapVariables (some ([] : List (String × α))) = [])
    ∧ engineCalls (StartProcessInstance env key businessKey sent w).2.trace
        = engineCalls w.trace ++ [Request.start key (wrapVariables sent) businessKey]
    ∧ engineCalls (CompleteExternalTask env workerID taskID sent w).2.trace
        = engineCalls w.trace ++ [Request.complete taskID workerID (wrapVariables sent)] := by
  refine ⟨⟨?_, ?_, rfl, rfl⟩, ?_, ?_⟩
  · cases vars with
    | none => rfl
    | some kvs => exact wrapVariables_keys kvs
  · intro k
    cases vars with
    | none => rfl
    | some kvs => exact wrapVariables_lookup k kvs
  · rw [StartProcessInstance_world]; simp [engineCalls]
  · rw [CompleteExternalTask_world]; simp [engineCalls]

/-! ## CreateTicket -/

theorem findRow_append_new (t : Ticket) (rows : List Ticket)
    (h : rows.any (fun r => r.ID = t.ID) = false) :
    findRow t.ID rows = none ∧ findRow t.ID (rows ++ [t]) = some t := by
  induction rows with
  | nil => simp [findRow]
  | cons r rs ih =>
    simp only [List.any_cons, Bool.or_eq_false_iff, decide_eq_false_iff_not] at h
    obtain ⟨h1, h2⟩ := ih h.2
    unfold findRow at h1 h2 ⊢
    simp [List.find?_cons, h.1, h1, h2]

/-- The three outcomes of `Create`. -/
theorem Create_cases (env : Env) (ticket : Ticket) (w : World) :
    (Create env ticket w).2.1 = BeforeCreate env ticket w
    ∧ (((Create env ticket w).1 ≠ none
        ∧ (Create env ticket w).2.2 = w.record (.dbCreate (BeforeCreate env ticket w)))
      ∨ ((Create env ticket w).1 = none
        ∧ w.tickets.any (fun r => r.ID = (BeforeCreate env ticket w).ID) = false
        ∧ (Create env ticket w).2.2
            = { w.record (.dbCreate (BeforeCreate env ticket w)) with
                tickets := w.tickets ++ [BeforeCreate env ticket w] })) := by
  unfold Create
  dsimp only
  split
  · exact ⟨rfl, Or.inl ⟨by simp, rfl⟩⟩
  · split
    · exact ⟨rfl, Or.inl ⟨by simp, rfl⟩⟩
    · rename_i h
      exact ⟨rfl, Or.inr ⟨rfl, by simpa using h, rfl⟩⟩

theorem created_event_outcome (env : Env) (t : Ticket) (w1 : World) :
    (match publishEvent env "ticket.created" t w1 with
      | (some err, w2) =>
        ((none : Option String), t, w2.record (.log ("publish ticket.created failed: " ++ err)))
      | (none, w2) => (none, t, w2)).1 = none
    ∧ (match publishEvent env "ticket.created" t w1 with
      | (some err, w2) =>
        ((none : Option String), t, w2.record (.log ("publish ticket.created failed: " ++ err)))
      | (none, w2) => (none, t, w2)).2.1 = t
    ∧ (match publishEvent env "ticket.created" t w1 with
      | (some err, w2) =>
        ((none : Option String), t, w2.record (.log ("publish ticket.created failed: " ++ err)))
      | (none, w2) => (none, t, w2)).2.2.tickets = w1.tickets := by
  have hp := publishEvent_tickets env "ticket.created" t w1
  split <;> rename_i h <;> rw [h] at hp <;> exact ⟨rfl, rfl, by simpa using hp⟩

/-- C13: whatever status the caller supplied, when `CreateTicket` returns no
error the table is the old one followed by the ticket it was given with
status draft and with its identifier kept if it was not nil and generated by
`uuid.New` if it was nil; no row had that identifier before, the ticket can be
found under it, and the identifier is not nil provided `uuid.New` does not
return the nil identifier.  When the store write fails `CreateTicket` returns
that error, the table is unchanged and nothing is published. -/
theorem create_ticket_contract (env : Env) (ticket : Ticket) (w : World) :
    ((CreateTicket env ticket w).1 = none →
      (CreateTicket env ticket w).2.1
          = { ticket with
              ID := if ticket.ID = UUID.Nil then env.uuidNew w else ticket.ID,
              Status := TicketStatusDraft }
      ∧ (CreateTicket env ticket w).2.2.tickets = w.tickets ++ [(CreateTicket env ticket w).2.1]
      ∧ findRow (CreateTicket env ticket w).2.1.ID w.tickets = none
      ∧ findRow (CreateTicket env ticket w).2.1.ID (CreateTicket env ticket w).2.2.tickets
          = some (CreateTicket env ticket w).2.1
      ∧ (env.uuidNew w ≠ UUID.Nil → (CreateTicket env ticket w).2.1.ID ≠ UUID.Nil))
    ∧ (∀ e, (Create env { ticket with Status := TicketStatusDraft } w).1 = some e →
        (CreateTicket env ticket w).1 = some e
        ∧ (CreateTicket env ticket w).2.2.tickets = w.tickets
        ∧ published (CreateTicket env ticket w).2.2.trace = published w.trace) := by
  have hB : BeforeCreate env { ticket with Status := TicketStatusDraft } w
      = { ticket with
          ID := if ticket.ID = UUID.Nil then env.uuidNew w else ticket.ID,
          Status := TicketStatusDraft } := by
    unfold BeforeCreate
    by_cases h : ticket.ID = UUID.Nil <;> simp [h, TicketStatusDraft]
  obtain ⟨hT, hC⟩ := Create_cases env { ticket with Status := TicketStatusDraft } w
  rw [hB] at hT hC
  cases hCr : Create env { ticket with Status := TicketStatusDraft } w with
  | mk e rest =>
    obtain ⟨t, w1⟩ := rest
    rw [hCr] at hT hC
    simp only at hT hC
    unfold CreateTicket
    simp only [hCr]
    cases e with
    | some err =>
      rcases hC with ⟨_, hw1⟩ | ⟨hn, _⟩
      · refine ⟨by simp, ?_⟩
        intro e he
        simp only [Option.some.injEq] at he
        subst he
        rw [hw1]
        simp [published]
      · simp at hn
    | none =>
      rcases hC with ⟨hn, _⟩ | ⟨_, hany, hw1⟩
      · simp at hn
      · obtain ⟨_, o2, o3⟩ := created_event_outcome env t w1
        have hfresh := findRow_append_new
          { ticket with
            ID := if ticket.ID = UUID.Nil then env.uuidNew w else ticket.ID,
            Status := TicketStatusDraft } w.tickets hany
        have hw1t : w1.tickets = w.tickets ++ [t] := by rw [hw1, hT]
        refine ⟨?_, by simp⟩
        intro _
        rw [o2, o3, hw1t]
        refine ⟨hT, rfl, ?_, ?_, ?_⟩
        · rw [hT]; exact hfresh.1
        · rw [hT]; exact hfresh.2
        · intro hnew
          rw [hT]
          by_cases h : ticket.ID = UUID.Nil
          · simpa [h] using hnew
          · simp [h]

/-- Scenario A: a ticket without identifier, handed over as approved, and the
same ticket while the store refuses the write. -/
theorem create_ticket_contract_witness :
    ((CreateTicket sampleEnv (newTicket "approved") emptyWorld).1 = none
      ∧ (CreateTicket sampleEnv (newTicket "approved") emptyWorld).2.2.tickets
          = [{ newTicket "draft" with ID := ⟨7⟩ }])
    ∧ ((Create storeDownEnv { newTicket "approved" with Status := TicketStatusDraft }
          emptyWorld).1 = some "connection reset"
      ∧ (CreateTicket storeDownEnv (newTicket "approved") emptyWorld).1 = some "connection reset"
      ∧ (CreateTicket storeDownEnv (newTicket "approved") emptyWorld).2.2.tickets = []) :=
  ⟨⟨by decide,
    (((create_ticket_contract sampleEnv (newTicket "approved") emptyWorld).1 (by decide)).2.1).trans
      (by decide)⟩,
   ⟨by decide,
    ((create_ticket_contract storeDownEnv (newTicket "approved") emptyWorld).2
      "connection reset" (by decide)).1,
    ((create_ticket_contract storeDownEnv (newTicket "approved") emptyWorld).2
      "connection reset" (by decide)).2.1⟩⟩

/-! ## FetchAndLockExternalTasks -/

/-- C14, as the code has it: when the engine answers the fetch-and-lock
request with a status code below 300 and a body that decodes to a list of
tasks, `FetchAndLockExternalTasks` returns that list as it is, in the same
order and of whatever length; the one request it sends carries the worker
identity, `maxTasks` 5, `usePriority` true, the topic and the lock duration
in whole milliseconds, the remainder below one millisecond dropped; a body
that decodes to the empty list gives the empty list and no error. -/
theorem fetch_and_lock_contract (env : Env) (workerID topic : String) (lockDuration : Int)
    (w : World) (resp : HttpResponse) (tasks : List ExternalTask)
    (hdo : env.httpDo w (Request.fetchAndLock workerID 5 true topic
      (Milliseconds lockDuration)) = .ok resp)
    (hcode : resp.StatusCode < 300)
    (hdec : env.decodeTasks resp.Body = .ok tasks) :
    (FetchAndLockExternalTasks env workerID topic lockDuration w).1 = .ok tasks
    ∧ engineCalls (FetchAndLockExternalTasks env workerID topic lockDuration w).2.trace
        = engineCalls w.trace
          ++ [Request.fetchAndLock workerID 5 true topic (Milliseconds lockDuration)]
    ∧ Milliseconds lockDuration * 1000000 + Int.tmod lockDuration 1000000 = lockDuration
    ∧ (0 ≤ lockDuration →
        Milliseconds lockDuration * 1000000 ≤ lockDuration
        ∧ lockDuration < (Milliseconds lockDuration + 1) * 1000000)
    ∧ (tasks = [] →
        (FetchAndLockExternalTasks env workerID topic lockDuration w).1 = .ok []) := by
  have hc : ¬ (resp.StatusCode ≥ 300) := not_le.mpr hcode
  have hres : (FetchAndLockExternalTasks env workerID topic lockDuration w).1 = .ok tasks := by
    unfold FetchAndLockExternalTasks
    simp [hdo, hc, hdec]
  refine ⟨hres, ?_, ?_, ?_, ?_⟩
  · rw [FetchAndLockExternalTasks_world]; simp [engineCalls]
  · unfold Milliseconds
    have := Int.tdiv_add_tmod lockDuration 1000000
    linarith
  · intro h
    unfold Milliseconds
    rw [Int.tdiv_eq_ediv h (by norm_num)]
    omega
  · intro h
    rw [hres, h]

/-- Scenario D: the sample worker fetching from the engine of the batch
environment, with a lock of one minute. -/
theorem fetch_and_lock_contract_witness :
    (batchEnv.httpDo emptyWorld (Request.fetchAndLock "worker-1" 5 true "ticket-processing"
        (Milliseconds 60000000000))
        = .ok { StatusCode := 200, Status := "200 OK", Body := "proc-1" }
      ∧ batchEnv.decodeTasks "proc-1" = .ok [strayTask, sampleTask])
    ∧ (FetchAndLockExternalTasks batchEnv "worker-1" "ticket-processing" 60000000000
        emptyWorld).1 = .ok [strayTask, sampleTask]
    ∧ engineCalls (FetchAndLockExternalTasks batchEnv "worker-1" "ticket-processing"
        60000000000 emptyWorld).2.trace
        = [Request.fetchAndLock "worker-1" 5 true "ticket-processing" 60000] :=
  ⟨by decide,
   (fetch_and_lock_contract batchEnv "worker-1" "ticket-processing" 60000000000 emptyWorld
      { StatusCode := 200, Status := "200 OK", Body := "proc-1" } [strayTask, sampleTask]
      (by decide) (by decide) (by decide)).1,
   (fetch_and_lock_contract batchEnv "worker-1" "ticket-processing" 60000000000 emptyWorld
      { StatusCode := 200, Status := "200 OK", Body := "proc-1" } [strayTask, sampleTask]
      (by decide) (by decide) (by decide)).2.1⟩

/-- C14 fails as stated: the engine answers `200 OK` with six tasks and
`FetchAndLockExternalTasks` returns all six, more than five. -/
theorem fetch_and_lock_returns_six :
    (crowdedEnv.httpDo emptyWorld (Request.fetchAndLock "worker-1" 5 true "ticket-processing"
        (Milliseconds 60000000000))).map (fun r => r.StatusCode) = .ok 200
    ∧ (FetchAndLockExternalTasks crowdedEnv "worker-1" "ticket-processing" 60000000000
        emptyWorld).1 = .ok sixTasks
    ∧ sixTasks.length = 6
    ∧ ¬ (sixTasks.length ≤ 5) := by
  decide

end PFlow
